import Mathlib

/-!
Verification of the VampireMan parameter-variation engine.

This file gives a shallow embedding of the variation, preparation and
validation stages of the VampireMan data-set generator
(`vampireman/variation_stage/vary.py`, `vampireman/variation_stage/vary_perlin.py`,
`vampireman/preparation_stage/preparation_stage.py`,
`vampireman/data_structures.py`, and
`vary_my_params/validation_stage/utils.py`), and proves properties of the
embedded code.

Modelling conventions:
* Python floats are modelled as real numbers; numeric claims of the
  specification are exact-arithmetic statements.
* Python dicts are modelled as insertion-ordered association lists.
* Python exceptions are modelled with `Except PyErr`; a raised exception is
  an `Except.error`.
* The shared numpy random generator is modelled as a pure value `Rng`
  holding an infinite stream of uniform draws and a stream of permutations,
  together with a position counter; consuming randomness only advances the
  position.  The actual PCG64 bit generator is external library code, so
  `default_rng` is modelled from the spec as a deterministic function of the
  seed.
* The external C noise library's `pnoise3` is modelled from the spec as a
  fixed pure real function.
* The unbounded collision-retry loop of the heat-pump expander takes an
  explicit fuel argument; running out of fuel models non-termination of the
  Python `while` loop.
-/

noncomputable section

/-- Embeds `Distribution` of `vampireman/data_structures.py` (UNIFORM / LOG). -/
inductive Distribution where
  | UNIFORM
  | LOG
deriving DecidableEq

/-- Embeds `Vary` of `vampireman/data_structures.py` (FIXED / CONST / SPACE / LIST). -/
inductive Vary where
  | FIXED
  | CONST
  | SPACE
  | LIST
deriving DecidableEq

/-- Embeds `ParameterValueMinMax` (a min/max pair of floats). -/
structure ValueMinMax where
  min : ℝ
  max : ℝ

/-- A heat-pump injection component: either a min/max range or a plain float. -/
inductive MinMaxOrFloat where
  | mm (v : ValueMinMax)
  | scalar (x : ℝ)

/-- Embeds the time-series form of an injection value: a list of (time, value) rows. -/
structure ValueTimeSeries where
  time_unit : String
  values : List (ℝ × MinMaxOrFloat)

/-- The possible forms of a heat pump's injection_temp / injection_rate field. -/
inductive InjectionValue where
  | timeSeries (ts : ValueTimeSeries)
  | mm (v : ValueMinMax)
  | scalar (x : ℝ)

/-- Embeds `HeatPump` of `vampireman/data_structures.py`: optional cell location plus
injection parameters. -/
structure HeatPump where
  location : Option (List ℝ)
  injection_temp : InjectionValue
  injection_rate : InjectionValue

/-- Embeds `HeatPumps` of `vampireman/data_structures.py`: a group of `number` pumps to
generate. -/
structure HeatPumps where
  number : ℕ
  injection_temp : InjectionValue
  injection_rate : InjectionValue

/-- The `frequency` field of a Perlin spec: either a min/max range or a fixed 3-vector. -/
inductive FrequencySpec where
  | mm (v : ValueMinMax)
  | vec (fs : List ℝ)

/-- Embeds `ParameterValuePerlin` (frequency spec plus target min/max). -/
structure ValuePerlin where
  frequency : FrequencySpec
  max : ℝ
  min : ℝ

/-- A three-dimensional numpy array of floats, as nested lists. -/
abbrev Field3 := List (List (List ℝ))

/-- The possible runtime values of a `Parameter.value` field. -/
inductive ParamValue where
  | scalar (x : ℝ)
  | intList (xs : List ℤ)
  | heatPumps (h : HeatPumps)
  | heatPump (h : HeatPump)
  | perlin (p : ValuePerlin)
  | minMax (v : ValueMinMax)
  | path (p : String)
  | array (f : Field3)

/-- Embeds `Parameter` of `vampireman/data_structures.py` (the fields used by the variation
and preparation stages). -/
structure Parameter where
  name : String
  value : ParamValue
  distribution : Distribution := Distribution.UNIFORM
  vary : Vary := Vary.FIXED

/-- The value stored in a resolved `Data` entry. -/
inductive DataValue where
  | scalar (x : ℝ)
  | intList (xs : List ℤ)
  | floatList (xs : List ℝ)
  | heatPump (h : HeatPump)
  | field (f : Field3)
  | str (s : String)

/-- Embeds `Data` of `vampireman/data_structures.py`: a named resolved value. -/
structure Data where
  name : String
  value : DataValue

/-- Embeds `Datapoint`: an index plus a dict of resolved `Data` values. -/
structure DataPoint where
  index : ℕ
  data : List (String × Data)

/-- Embeds the fields of `GeneralConfig` used by these stages. -/
structure GeneralConfig where
  number_cells : List ℕ
  cell_resolution : ℝ
  shuffle_datapoints : Bool
  random_seed : Option ℤ
  number_datapoints : ℕ

/-- Python exceptions raised by the embedded code. `fuelExhausted` marks the explicit fuel
of the collision-retry loop running out, i.e. the Python loop still running. -/
inductive PyErr where
  | zeroDivision
  | notImplemented
  | valueError (msg : String)
  | assertionError
  | keyError
  | indexError
  | unboundLocal
  | fuelExhausted
deriving DecidableEq

/-- Modelled from the spec: the shared numpy random generator. The PCG64 bit generator is
external library code, so the generator is modelled as an infinite stream of uniform draws
in [0,1) and a stream of permutations, plus a position counter; consuming randomness only
advances `pos`, never the streams. -/
structure Rng where
  stream : ℕ → ℝ
  perms : ℕ → (n : ℕ) → Equiv.Perm (Fin n)
  pos : ℕ

/-- Model of `rng.random()`: the draw at the current position, advancing the position by
one. -/
def Rng.random (r : Rng) : ℝ × Rng :=
  (r.stream r.pos, { r with pos := r.pos + 1 })

/-- Model of `rng.random(3)`: three consecutive draws, advancing the position by three. -/
def Rng.random3 (r : Rng) : (ℝ × ℝ × ℝ) × Rng :=
  let p1 := r.random
  let p2 := p1.2.random
  let p3 := p2.2.random
  ((p1.1, p2.1, p3.1), p3.2)

/-- Applies a permutation to a list; the result of an in-place numpy shuffle. -/
def applyPerm (xs : List α) (σ : Equiv.Perm (Fin xs.length)) : List α :=
  List.ofFn (fun i => xs.get (σ i))

/-- Model of `rng.shuffle(xs)`: applies the next permutation of the permutation stream and
advances the position by one. -/
def Rng.shuffleList (r : Rng) (xs : List α) : List α × Rng :=
  (applyPerm xs (r.perms r.pos xs.length), { r with pos := r.pos + 1 })

/-- Modelled from the spec: `np.random.default_rng(seed)` is a deterministic function of
the seed, yielding draws in [0,1). The concrete streams are unspecified; only determinism
in the seed is used. -/
def default_rng (_seed : Option ℤ) : Rng :=
  { stream := fun _ => 0, perms := fun _ _ => Equiv.refl _, pos := 0 }

/-- Modelled from the spec: the external C noise library's `noise.pnoise3`, stood in by a
fixed pure real-valued function of the coordinates. -/
def pnoise3 (x y z : ℝ) : ℝ :=
  Real.sin (x + 2 * y + 3 * z)

/-- Python `d.get(k)` on an insertion-ordered association list. -/
def dictGet (d : List (String × α)) (k : String) : Option α :=
  match d with
  | [] => none
  | (k', v) :: rest => if k' = k then some v else dictGet rest k

/-- Python `d[k] = v`: overwrites in place if the key exists, else appends. -/
def dictSet (d : List (String × α)) (k : String) (v : α) : List (String × α) :=
  match d with
  | [] => [(k, v)]
  | (k', v') :: rest => if k' = k then (k', v) :: rest else (k', v') :: dictSet rest k v

/-- Python `a | b`: right operand wins, insertion order of `a` kept for shared keys. -/
def dictMerge (a b : List (String × α)) : List (String × α) :=
  (a.map (fun kv => (kv.1, (dictGet b kv.1).getD kv.2)))
    ++ b.filter (fun kv => (dictGet a kv.1).isNone)

/-- Embeds `State` of `vampireman/data_structures.py` (the fields used by the variation,
preparation and validation stages). -/
structure State where
  general : GeneralConfig
  hydrogeological_parameters : List (String × Parameter)
  heatpump_parameters : List (String × Parameter)
  datapoints : List DataPoint
  rng : Rng

/-- Embeds `instantiate_random_number_generator` of `vampireman/data_structures.py` (lines
642-649): seeds the shared generator from `general.random_seed`, exactly once. -/
def instantiate_random_number_generator (s : State) : State :=
  { s with rng := default_rng s.general.random_seed }

/-- Embeds `check_all_or_none_file_paths` of `vampireman/data_structures.py` (lines
652-689). The body computes which of permeability / pressure_gradient / temperature are
file paths, but the raise on partial compliance (lines 683-687) is commented out in the
source, so the validator always returns the state unchanged. -/
def check_all_or_none_file_paths (s : State) : Except PyErr State := do
  let permeability := dictGet s.hydrogeological_parameters "permeability"
  let pressure_gradient := dictGet s.hydrogeological_parameters "pressure_gradient"
  let temperature := dictGet s.hydrogeological_parameters "temperature"
  let _permeability_is_path : Bool ←
    match permeability with
    | some p =>
      match p.value with
      | ParamValue.path _ =>
        if ¬(p.vary = Vary.FIXED ∨ p.vary = Vary.LIST) then
          Except.error (PyErr.valueError "When providing a Path, vary mode must be FIXED or LIST")
        else Except.ok true
      | _ => Except.ok false
    | none => Except.ok false
  let _pressure_gradient_is_path : Bool ←
    match pressure_gradient with
    | some p =>
      match p.value with
      | ParamValue.path _ =>
        if ¬(p.vary = Vary.FIXED) then
          Except.error (PyErr.valueError "When providing a Path, vary mode must be FIXED")
        else Except.ok true
      | _ => Except.ok false
    | none => Except.ok false
  let _temperature_is_path : Bool ←
    match temperature with
    | some p =>
      match p.value with
      | ParamValue.path _ =>
        if ¬(p.vary = Vary.FIXED) then
          Except.error (PyErr.valueError "When providing a Path, vary mode must be FIXED")
        else Except.ok true
      | _ => Except.ok false
    | none => Except.ok false
  Except.ok s

/-- All entries of a 3-D field, flattened (numpy ravel). -/
def fieldFlatten (f : Field3) : List ℝ :=
  (f.map List.flatten).flatten

/-- Pointwise map over a 3-D field (numpy broadcasting). -/
def fieldMap (g : ℝ → ℝ) (f : Field3) : Field3 :=
  f.map (fun plane => plane.map (fun row => row.map g))

/-- `np.min` over a 3-D field (0 on the empty field, which does not occur). -/
def fieldMin (f : Field3) : ℝ :=
  ((fieldFlatten f).min?).getD 0

/-- `np.max` over a 3-D field. -/
def fieldMax (f : Field3) : ℝ :=
  ((fieldFlatten f).max?).getD 0

/-- The rescaling `(v - min)/(max - min) * (newMax - newMin) + newMin` applied pointwise,
as in `make_perlin_grid` lines 49-53 and `calc_pressure_from_gradient_field` line 112 of
`vampireman/variation_stage/vary_perlin.py`. -/
def rescaleField (f : Field3) (newMin newMax : ℝ) : Field3 :=
  let currentMin := fieldMin f
  let currentMax := fieldMax f
  fieldMap (fun v => (v - currentMin) / (currentMax - currentMin) * (newMax - newMin) + newMin) f

/-- The raw noise sampling loop of `make_perlin_grid` (lines 34-46): `values[i,j,k] =
pnoise3((i/n0*s0 + o0)*f0, ...)`. -/
def perlinRawGrid (n0 n1 n2 : ℕ) (s0 s1 s2 o0 o1 o2 f0 f1 f2 : ℝ) : Field3 :=
  (List.range n0).map (fun i =>
    (List.range n1).map (fun j =>
      (List.range n2).map (fun k =>
        pnoise3 (((i : ℝ) / n0 * s0 + o0) * f0)
                (((j : ℝ) / n1 * s1 + o1) * f1)
                (((k : ℝ) / n2 * s2 + o2) * f2))))

/-- Embeds `make_perlin_grid` of `vampireman/variation_stage/vary_perlin.py`: raw noise
grid, then rescale to `[aimed_min, aimed_max]`. -/
def make_perlin_grid (aimed_min aimed_max : ℝ) (state : State) (offset : List ℝ)
    (freq : List ℝ) : Field3 :=
  let dims := state.general.number_cells
  let n0 := dims.getD 0 0
  let n1 := dims.getD 1 0
  let n2 := dims.getD 2 0
  let simulation_area_max : ℝ := max (n0 : ℝ) (max (n1 : ℝ) (n2 : ℝ))
  let values := perlinRawGrid n0 n1 n2
    ((n0 : ℝ) / simulation_area_max) ((n1 : ℝ) / simulation_area_max)
    ((n2 : ℝ) / simulation_area_max)
    (offset.getD 0 0) (offset.getD 1 0) (offset.getD 2 0)
    (freq.getD 0 0) (freq.getD 1 0) (freq.getD 2 0)
  rescaleField values aimed_min aimed_max

/-- One output column of the integration loop of `calc_pressure_from_gradient_field` (lines
117-120): `pressure[:, i] = pressure[:, i-1] + gradient[:, i] * resolution * 1000`
restricted to a single axis-0 row, carrying the previous column `prev`. -/
def integrateCols (c : ℝ) (prev : List ℝ) : List (List ℝ) → List (List ℝ)
  | [] => []
  | g :: rest =>
    let cur := List.zipWith (fun p gk => p + gk * c) prev g
    cur :: integrateCols c cur rest

/-- The pressure rows for one axis-0 slice: column 0 is the constant 101325 reference,
later columns integrate via `integrateCols`. -/
def pressureRow (c : ℝ) : List (List ℝ) → List (List ℝ)
  | [] => []
  | g0 :: rest =>
    let first := g0.map (fun _ => (101325 : ℝ))
    first :: integrateCols c first rest

/-- Embeds `calc_pressure_from_gradient_field` of
`vampireman/variation_stage/vary_perlin.py` (lines 108-134): asserts the parameter value is
a min/max pair, rescales the field, integrates along axis 1 from the 101325 Pa reference,
then reverses axis 0 (`pressure_field[::-1]`). -/
def calc_pressure_from_gradient_field (gradient_field : Field3) (state : State)
    (parameter : Parameter) : Except PyErr Field3 :=
  match parameter.value with
  | ParamValue.minMax v =>
    let g := rescaleField gradient_field v.min v.max
    let c := state.general.cell_resolution * 1000
    Except.ok ((g.map (pressureRow c)).reverse)
  | _ => Except.error PyErr.assertionError

/-- Embeds `create_perlin_field` of `vampireman/variation_stage/vary_perlin.py`: draws a
base offset, builds the grid (optionally in log space), and for a parameter named
pressure_gradient applies the gradient-to-pressure transform. -/
def create_perlin_field (state : State) (parameter : Parameter) :
    Except PyErr (Field3 × Rng) :=
  let ov := state.rng.random3
  let o := ov.1
  let rng1 := ov.2
  let base_offset : List ℝ := [o.1 * 4242, o.2.1 * 4242, o.2.2 * 4242]
  match parameter.value with
  | ParamValue.perlin pv =>
    let fr : List ℝ × Rng :=
      match pv.frequency with
      | FrequencySpec.mm v =>
        let p1 := rng1.random
        let p2 := p1.2.random
        let p3 := p2.2.random
        ([v.max - p1.1 * (v.max - v.min), v.max - p2.1 * (v.max - v.min),
          v.max - p3.1 * (v.max - v.min)], p3.2)
      | FrequencySpec.vec fs => (fs, rng1)
    let vary_min := if parameter.distribution = Distribution.LOG then Real.logb 10 pv.min else pv.min
    let vary_max := if parameter.distribution = Distribution.LOG then Real.logb 10 pv.max else pv.max
    let cells := make_perlin_grid vary_min vary_max state base_offset fr.1
    let cells := if parameter.distribution = Distribution.LOG
      then fieldMap (fun v => (10 : ℝ) ^ v) cells else cells
    if parameter.name = "pressure_gradient" then
      match calc_pressure_from_gradient_field cells state parameter with
      | Except.ok cells' => Except.ok (cells', fr.2)
      | Except.error e => Except.error e
    else
      Except.ok (cells, fr.2)
  | _ => Except.error (PyErr.valueError "create_perlin_field expects a ValuePerlin value")

/-- The time-series branch of `handle_heatpump_values`: each min/max row draws one uniform
value. -/
def handleTimeSeriesValues (rand : Rng) :
    List (ℝ × MinMaxOrFloat) → List (ℝ × MinMaxOrFloat) × Rng
  | [] => ([], rand)
  | (t, MinMaxOrFloat.mm v) :: rest =>
    let p := rand.random
    let hr := handleTimeSeriesValues p.2 rest
    ((t, MinMaxOrFloat.scalar (v.max - p.1 * (v.max - v.min))) :: hr.1, hr.2)
  | (t, MinMaxOrFloat.scalar x) :: rest =>
    let hr := handleTimeSeriesValues rand rest
    ((t, MinMaxOrFloat.scalar x) :: hr.1, hr.2)

/-- Embeds `handle_heatpump_values` of `vampireman/variation_stage/vary.py`: resolves a
heat pump's injection_temp and injection_rate, drawing from the shared generator where
ranges are given. -/
def handle_heatpump_values (rand : Rng) (hp_data : HeatPump) :
    Except PyErr (HeatPump × Rng) :=
  match hp_data.injection_temp, hp_data.injection_rate with
  | InjectionValue.timeSeries ts1, InjectionValue.timeSeries ts2 =>
    let h1 := handleTimeSeriesValues rand ts1.values
    let h2 := handleTimeSeriesValues h1.2 ts2.values
    Except.ok
      ({ hp_data with
          injection_temp := InjectionValue.timeSeries { ts1 with values := h1.1 },
          injection_rate := InjectionValue.timeSeries { ts2 with values := h2.1 } }, h2.2)
  | _, _ => Except.error PyErr.assertionError

/-- Embeds `generate_heatpump_location` of `vampireman/variation_stage/vary.py` (lines
154-161): three uniform draws, each multiplied by the axis cell count and ceiled. -/
def generate_heatpump_location (state : State) : List ℝ × Rng :=
  let rv := state.rng.random3
  let r := rv.1
  let cells := state.general.number_cells
  ([((⌈r.1 * (cells.getD 0 0 : ℕ)⌉ : ℤ) : ℝ),
    ((⌈r.2.1 * (cells.getD 1 0 : ℕ)⌉ : ℤ) : ℝ),
    ((⌈r.2.2 * (cells.getD 2 0 : ℕ)⌉ : ℤ) : ℝ)], rv.2)

/-- Embeds `vary_heatpump` of `vampireman/variation_stage/vary.py`: draws a location,
converts it to physical coordinates via `(loc - 1) * resolution + resolution * 0.5`, and
resolves the injection values. -/
def vary_heatpump (state : State) (parameter : Parameter) :
    Except PyErr (Data × Rng) :=
  match parameter.value with
  | ParamValue.heatPump hp => do
    let (hp1, rng1) ← handle_heatpump_values state.rng hp
    if parameter.vary = Vary.SPACE then
      let lc := generate_heatpump_location { state with rng := rng1 }
      let resolution := state.general.cell_resolution
      let result_location := lc.1.map (fun c => (c - 1) * resolution + resolution * (1 / 2))
      Except.ok
        ({ name := parameter.name,
           value := DataValue.heatPump { hp1 with location := some result_location } }, lc.2)
    else
      Except.ok ({ name := parameter.name, value := DataValue.heatPump hp1 }, rng1)
  | _ => Except.error PyErr.assertionError

/-- Conversion of a parameter value copied verbatim into a `Data` entry (the FIXED branch).
-/
def paramValueToDataValue (v : ParamValue) : Except PyErr DataValue :=
  match v with
  | ParamValue.scalar x => Except.ok (DataValue.scalar x)
  | ParamValue.intList xs => Except.ok (DataValue.intList xs)
  | ParamValue.heatPump h => Except.ok (DataValue.heatPump h)
  | ParamValue.array f => Except.ok (DataValue.field f)
  | _ => Except.error (PyErr.valueError "value shape not allowed in Data")

/-- Embeds `copy_parameter` of `vampireman/variation_stage/vary.py`: the FIXED branch,
copying the value unchanged. -/
def copy_parameter (state : State) (parameter : Parameter) :
    Except PyErr (Data × Rng) :=
  match parameter.value with
  | ParamValue.heatPump _ => vary_heatpump state parameter
  | v => do
    let dv ← paramValueToDataValue v
    Except.ok ({ name := parameter.name, value := dv }, state.rng)

/-- Embeds `vary_parameter` of `vampireman/variation_stage/vary.py` (lines 74-101). The
CONST/min-max branch computes `min + (i/(N-1))*(max-min)` (or the same in log10 space); `N
= 1` makes the divisor `N - 1` zero, which Python raises as ZeroDivisionError, embedded as
`PyErr.zeroDivision`. The LIST branch reads a variable never assigned, embedded as
`PyErr.unboundLocal`. -/
def vary_parameter (state : State) (parameter : Parameter) (index : ℕ) :
    Except PyErr (Data × Rng) :=
  match parameter.value with
  | ParamValue.heatPumps _ => Except.error PyErr.assertionError
  | _ =>
    match parameter.vary with
    | Vary.FIXED => copy_parameter state parameter
    | Vary.CONST =>
      match parameter.value with
      | ParamValue.minMax v =>
        let mx := if parameter.distribution = Distribution.LOG then Real.logb 10 v.max else v.max
        let mn := if parameter.distribution = Distribution.LOG then Real.logb 10 v.min else v.min
        let distance := mx - mn
        if state.general.number_datapoints = 1 then Except.error PyErr.zeroDivision
        else
          let step_width := distance / ((state.general.number_datapoints : ℝ) - 1)
          let value := mn + step_width * (index : ℝ)
          let value := if parameter.distribution = Distribution.LOG then (10 : ℝ) ^ value else value
          Except.ok ({ name := parameter.name, value := DataValue.scalar value }, state.rng)
      | _ => Except.error PyErr.notImplemented
    | Vary.SPACE =>
      match parameter.value with
      | ParamValue.perlin _ =>
        match create_perlin_field state parameter with
        | Except.ok (f, rng') =>
          Except.ok ({ name := parameter.name, value := DataValue.field f }, rng')
        | Except.error e => Except.error e
      | ParamValue.scalar _ =>
        Except.error (PyErr.valueError "vary space with a float value, use vary fixed instead")
      | ParamValue.heatPump _ => vary_heatpump state parameter
      | ParamValue.minMax _ =>
        Except.error (PyErr.valueError "vary space with min max values, use vary perlin instead")
      | _ => Except.error PyErr.notImplemented
    | Vary.LIST => Except.error PyErr.unboundLocal

/-- The per-parameter loop body of `vary_params` for one datapoint index: resolves every
parameter in order, threading the generator. -/
def varyLoop (state : State) (ps : List (String × Parameter)) (index : ℕ)
    (acc : List (String × Data)) : Except PyErr (List (String × Data) × Rng) :=
  match ps with
  | [] => Except.ok (acc, state.rng)
  | (_, p) :: rest => do
    let (d, rng') ← vary_parameter state p index
    varyLoop { state with rng := rng' } rest index (dictSet acc p.name d)

/-- The list `[dp.data[name] for dp in datapoints]` of `shuffle_datapoints`, failing with
KeyError when a datapoint lacks the name. -/
def collectColumn (dps : List DataPoint) (name : String) :
    Except PyErr (List Data) :=
  match dps with
  | [] => Except.ok []
  | dp :: rest => do
    match dictGet dp.data name with
    | none => Except.error PyErr.keyError
    | some d =>
      let ds ← collectColumn rest name
      Except.ok (d :: ds)

/-- The shuffling loop of `shuffle_datapoints`: for each parameter name, collects the
column, shuffles it with the shared generator, and records it. -/
def shuffleColumns (rng : Rng) (names : List String) (dps : List DataPoint) :
    Except PyErr (List (String × List Data) × Rng) :=
  match names with
  | [] => Except.ok ([], rng)
  | n :: rest => do
    let col ← collectColumn dps n
    let cr := rng.shuffleList col
    let further ← shuffleColumns cr.2 rest dps
    Except.ok ((n, cr.1) :: further.1, further.2)

/-- Writes one shuffled column back: datapoint `i` receives entry `i` of the column. -/
def writeColumn (name : String) :
    List DataPoint → List Data → ℕ → Except PyErr (List DataPoint)
  | dps, _, 0 => Except.ok dps
  | [], _, _ + 1 => Except.error PyErr.indexError
  | _ :: _, [], _ + 1 => Except.error PyErr.indexError
  | dp :: dps, d :: ds, n + 1 => do
    let rest ← writeColumn name dps ds n
    Except.ok ({ dp with data := dictSet dp.data name d } :: rest)

/-- Writes all shuffled columns back into the datapoints. -/
def writeColumns (dps : List DataPoint) (cols : List (String × List Data))
    (n : ℕ) : Except PyErr (List DataPoint) :=
  match cols with
  | [] => Except.ok dps
  | (name, col) :: rest => do
    let dps' ← writeColumn name dps col n
    writeColumns dps' rest n

/-- Embeds `shuffle_datapoints` of `vampireman/variation_stage/vary.py` (lines 188-212):
per-name column shuffle across datapoints. -/
def shuffle_datapoints (state : State) : Except PyErr State :=
  match state.datapoints with
  | [] => Except.error PyErr.indexError
  | dp0 :: _ => do
    let parameter_names := dp0.data.map Prod.fst
    let (cols, rng') ← shuffleColumns state.rng parameter_names state.datapoints
    let dps' ← writeColumns state.datapoints cols state.general.number_datapoints
    Except.ok { state with datapoints := dps', rng := rng' }

/-- The datapoint loop of `vary_params`: builds one `Datapoint` per index. -/
def varyIndices (state : State) (indices : List ℕ) : Except PyErr State :=
  match indices with
  | [] => Except.ok state
  | i :: rest => do
    let merged := dictMerge state.hydrogeological_parameters state.heatpump_parameters
    let (data, rng') ← varyLoop state merged i []
    varyIndices
      { state with rng := rng',
                   datapoints := state.datapoints ++ [{ index := i, data := data }] } rest

/-- Embeds `vary_params` of `vampireman/variation_stage/vary.py` (lines 164-185): varies
every parameter for every datapoint index, then shuffles if configured. -/
def vary_params (state : State) : Except PyErr State := do
  let s ← varyIndices state (List.range state.general.number_datapoints)
  if s.general.shuffle_datapoints then shuffle_datapoints s else Except.ok s

/-- The tuple `(location[0], location[1], location[2])` formed in
`are_duplicate_locations_in_heatpumps`. -/
def locTriple (loc : List ℝ) : ℝ × ℝ × ℝ :=
  (loc.getD 0 0, loc.getD 1 0, loc.getD 2 0)

/-- The loop of `are_duplicate_locations_in_heatpumps`: accumulates seen locations,
flagging a duplicate when a location recurs; `None` locations are skipped. -/
def areDupLoop (seen : List (ℝ × ℝ × ℝ)) (dup : Bool) : List HeatPump → Bool
  | [] => dup
  | hp :: rest =>
    match hp.location with
    | none => areDupLoop seen dup rest
    | some loc =>
      if locTriple loc ∈ seen then areDupLoop seen true rest
      else areDupLoop (locTriple loc :: seen) dup rest

/-- Embeds `are_duplicate_locations_in_heatpumps` of
`vary_my_params/validation_stage/utils.py` (lines 41-61). -/
def are_duplicate_locations_in_heatpumps (heatpumps : List HeatPump) : Bool :=
  areDupLoop [] false heatpumps

/-- The comprehension `[d.value for name, d in ... if isinstance(d.value, HeatPump)]` of
`validation_stage`. -/
def heatPumpValues (ps : List (String × Parameter)) : List HeatPump :=
  ps.filterMap (fun kv =>
    match kv.2.value with
    | ParamValue.heatPump h => some h
    | _ => none)

/-- Embeds `validation_stage` of `vary_my_params/validation_stage/utils.py`: mandatory
background parameters present, no duplicate heat-pump locations, no heat pumps among the
hydrogeological parameters. -/
def validation_stage (state : State) : Except PyErr State :=
  if (dictGet state.hydrogeological_parameters "permeability").isNone then
    Except.error (PyErr.valueError "`permeability` must not be None")
  else if (dictGet state.hydrogeological_parameters "pressure_gradient").isNone then
    Except.error (PyErr.valueError "`pressure_gradient` must not be None")
  else if (dictGet state.hydrogeological_parameters "temperature").isNone then
    Except.error (PyErr.valueError "`temperature` must not be None")
  else if are_duplicate_locations_in_heatpumps (heatPumpValues state.heatpump_parameters) then
    Except.error (PyErr.valueError "Duplicate HeatPump location detected!")
  else if 0 < (state.hydrogeological_parameters.filter (fun kv =>
      match kv.2.value with
      | ParamValue.heatPump _ => true
      | ParamValue.heatPumps _ => true
      | _ => false)).length then
    Except.error (PyErr.valueError "Heat pumps found in hydrogeological_parameters, this is not allowed")
  else
    Except.ok state

/-- The per-pump loop of `calculate_hp_coordinates`: each non-None cell location component
maps to `(loc - 1) * resolution + resolution * 0.5`. -/
def calcHpCoordsList (resolution : ℝ) :
    List (String × Parameter) → Except PyErr (List (String × Parameter))
  | [] => Except.ok []
  | (n, p) :: rest =>
    match p.value with
    | ParamValue.heatPump hp => do
      let p' :=
        match hp.location with
        | none => p
        | some loc =>
          let newLoc := loc.map (fun c => (c - 1) * resolution + resolution * (1 / 2))
          let hp' : HeatPump := { hp with location := some newLoc }
          { p with value := ParamValue.heatPump hp' }
      let rest' ← calcHpCoordsList resolution rest
      Except.ok ((n, p') :: rest')
    | _ => Except.error PyErr.assertionError

/-- Embeds `calculate_hp_coordinates` of
`vampireman/preparation_stage/preparation_stage.py` (lines 57-77). -/
def calculate_hp_coordinates (state : State) : Except PyErr State := do
  let hps ← calcHpCoordsList state.general.cell_resolution state.heatpump_parameters
  Except.ok { state with heatpump_parameters := hps }

/-- The collision-retry `while` loop of `generate_heatpumps` (with explicit fuel): redraws
the pump location until it clashes with no already-assigned location; exhausted fuel models
the Python loop still running. -/
def redrawLoop (state : State) (others : List HeatPump) (hp : HeatPump) :
    ℕ → Rng → Option (HeatPump × Rng)
  | 0, _ => none
  | fuel + 1, rng =>
    if are_duplicate_locations_in_heatpumps (others ++ [hp]) then
      let (loc, rng') := generate_heatpump_location { state with rng := rng }
      redrawLoop state others { hp with location := some loc } fuel rng'
    else some (hp, rng)

/-- Expansion of one `HeatPumps` group: for each index, a fresh location is drawn (with
retries) and the generated name `{group}_{index}` is checked for clashes via `name in
state.heatpump_parameters and name in new_heatpump_parameters` (source line 105). -/
def genGroup (state : State) (gname : String) (g : HeatPumps) (gvary : Vary)
    (fuel : ℕ) :
    List ℕ → List (String × Parameter) → Rng →
    Except PyErr (List (String × Parameter) × Rng)
  | [], new, rng => Except.ok (new, rng)
  | idx :: rest, new, rng =>
    let name := gname ++ "_" ++ toString idx
    if (dictGet state.heatpump_parameters name).isSome ∧ (dictGet new name).isSome then
      Except.error (PyErr.valueError ("There is a naming clash for generated heatpump " ++ name))
    else
      let lr := generate_heatpump_location { state with rng := rng }
      let heatpump : HeatPump :=
        { location := some lr.1,
          injection_temp := g.injection_temp,
          injection_rate := g.injection_rate }
      match redrawLoop state (heatPumpValues new) heatpump fuel lr.2 with
      | none => Except.error PyErr.fuelExhausted
      | some (hp', rng2) =>
        genGroup state gname g gvary fuel rest
          (new ++ [(name, { name := name, value := ParamValue.heatPump hp', vary := gvary })]) rng2

/-- The outer loop of `generate_heatpumps` over the heat-pump parameter dict: groups are
expanded, explicit pumps are carried over. -/
def genGroupsLoop (state : State) (fuel : ℕ) :
    List (String × Parameter) → List (String × Parameter) → Rng →
    Except PyErr (List (String × Parameter) × Rng)
  | [], new, rng => Except.ok (new, rng)
  | (_, p) :: rest, new, rng =>
    match p.value with
    | ParamValue.heatPump _ => genGroupsLoop state fuel rest new rng
    | ParamValue.heatPumps g => do
      let (new', rng') ← genGroup state p.name g p.vary fuel (List.range g.number) new rng
      genGroupsLoop state fuel rest new' rng'
    | _ => Except.error (PyErr.valueError "There was a non HeatPumps item in heatpump_parameters")

/-- The dict of explicit (non-group) pumps that seeds the generated dict, as in the
source's initial `new_heatpump_parameters`. -/
def seedExplicitPumps (ps : List (String × Parameter)) : List (String × Parameter) :=
  ps.filterMap (fun kv =>
    match kv.2.value with
    | ParamValue.heatPump _ => some (kv.2.name, kv.2)
    | _ => none)

/-- Embeds `generate_heatpumps` of `vampireman/preparation_stage/preparation_stage.py`
(lines 80-133), with explicit fuel for the unbounded collision-retry loop. -/
def generate_heatpumps (state : State) (fuel : ℕ) : Except PyErr State := do
  let seeded := seedExplicitPumps state.heatpump_parameters
  let (new, rng') ← genGroupsLoop state fuel state.heatpump_parameters seeded state.rng
  Except.ok { state with heatpump_parameters := new, rng := rng' }

/-- The specification's cell-center coordinate conversion, written from the spec wording
for comparison with `calculate_hp_coordinates`: each non-null component maps to `(idx - 1)
* res + res / 2`. -/
def hpCoordinateSpec (resolution : ℝ) (kv : String × Parameter) : String × Parameter :=
  match kv.2.value with
  | ParamValue.heatPump hp =>
    match hp.location with
    | none => kv
    | some loc =>
      let hp' : HeatPump :=
        { hp with location := some (loc.map (fun c => (c - 1) * resolution + resolution / 2)) }
      (kv.1, { kv.2 with value := ParamValue.heatPump hp' })
  | _ => kv

/-- A small concrete general configuration used by the concrete evaluations. -/
def baseConfig : GeneralConfig :=
  { number_cells := [32, 256, 1], cell_resolution := 5, shuffle_datapoints := true,
    random_seed := some 0, number_datapoints := 1 }

/-- A generator whose every draw is 1/2 and whose every permutation is the identity. -/
def halfRng : Rng :=
  { stream := fun _ => 1 / 2, perms := fun _ _ => Equiv.refl _, pos := 0 }

/-- A state supplying `permeability` as a file path while `pressure_gradient` and
`temperature` are scalars: partial compliance with the all-or-none rule. -/
def partialPathState : State :=
  { general := baseConfig,
    hydrogeological_parameters :=
      [("permeability", { name := "permeability", value := ParamValue.path "permeability.h5" }),
       ("pressure_gradient", { name := "pressure_gradient", value := ParamValue.scalar (-1/400) }),
       ("temperature", { name := "temperature", value := ParamValue.scalar 10.6 })],
    heatpump_parameters := [],
    datapoints := [],
    rng := halfRng }

/-- A state requesting exactly one datapoint. -/
def singleDatapointState : State :=
  { general := baseConfig,
    hydrogeological_parameters := [],
    heatpump_parameters := [],
    datapoints := [],
    rng := halfRng }

/-- A CONST UNIFORM parameter with value MinMax(1, 5). -/
def constRampParameter : Parameter :=
  { name := "permeability", value := ParamValue.minMax { min := 1, max := 5 },
    vary := Vary.CONST }

/-- A CONST LOG parameter with value MinMax(1, 5). -/
def constLogRampParameter : Parameter :=
  { name := "permeability", value := ParamValue.minMax { min := 1 / 100, max := 100 },
    distribution := Distribution.LOG, vary := Vary.CONST }

/-- A heat pump at cell location [16, 32, 1]. -/
def hpSixteen : HeatPump :=
  { location := some [16, 32, 1],
    injection_temp := InjectionValue.scalar 13.6,
    injection_rate := InjectionValue.scalar (3 / 12500) }

/-- The heat pump at cell [16, 32, 1] wrapped as a parameter. -/
def hpSixteenParam : Parameter :=
  { name := "hp1", value := ParamValue.heatPump hpSixteen }

/-- The expected conversion of `hpSixteenParam` at resolution 5: physical coordinates
[77.5, 157.5, 2.5]. -/
def hpSixteenConvertedParam : Parameter :=
  { name := "hp1",
    value := ParamValue.heatPump { hpSixteen with location := some [77.5, 157.5, 2.5] } }

/-- A state holding the single heat pump at cell [16, 32, 1], resolution 5. -/
def hpConversionState : State :=
  { general := baseConfig,
    hydrogeological_parameters := [],
    heatpump_parameters := [("hp1", hpSixteenParam)],
    datapoints := [],
    rng := halfRng }

/-- `hpConversionState` after coordinate conversion. -/
def hpConversionStateExpected : State :=
  { hpConversionState with heatpump_parameters :=
      hpConversionState.heatpump_parameters.map (hpCoordinateSpec hpConversionState.general.cell_resolution) }

/-- A CONST UNIFORM parameter with a given name and min/max range. -/
def constParamU (name : String) (mn mx : ℝ) : Parameter :=
  { name := name, value := ParamValue.minMax { min := mn, max := mx }, vary := Vary.CONST }

/-- A CONST LOG parameter with a given name and min/max range. -/
def constParamL (name : String) (mn mx : ℝ) : Parameter :=
  { name := name, value := ParamValue.minMax { min := mn, max := mx },
    distribution := Distribution.LOG, vary := Vary.CONST }

/-- A resolved scalar `Data` entry. -/
def scalarData (name : String) (x : ℝ) : Data :=
  { name := name, value := DataValue.scalar x }

/-- Written from the spec wording for comparison: identical to
`calc_pressure_from_gradient_field` except that the final reversal is applied along the
integration axis (axis 1) instead of axis 0, as the specification describes. -/
def calcPressureIntegrationAxisReversed (gradient_field : Field3) (state : State)
    (parameter : Parameter) : Except PyErr Field3 :=
  match parameter.value with
  | ParamValue.minMax v =>
    let g := rescaleField gradient_field v.min v.max
    let c := state.general.cell_resolution * 1000
    Except.ok (g.map (fun row => (pressureRow c row).reverse))
  | _ => Except.error PyErr.assertionError

/-- A SPACE parameter named pressure_gradient carrying a Perlin value: the shape reaching
`calc_pressure_from_gradient_field` in `create_perlin_field`. -/
def pgPerlinParam : Parameter :=
  { name := "pressure_gradient",
    value := ParamValue.perlin
      { frequency := FrequencySpec.vec [18, 18, 18], max := 1, min := 0 },
    vary := Vary.SPACE }

/-- A parameter named pressure_gradient carrying a MinMax value, satisfying the assertion
of `calc_pressure_from_gradient_field`. -/
def pgMinMaxParam : Parameter :=
  { name := "pressure_gradient", value := ParamValue.minMax { min := 0, max := 1 },
    vary := Vary.SPACE }

/-- A 2 x 2 x 1 gradient field distinguishing the two candidate reversal axes. -/
def counterField : Field3 := [[[0], [1]], [[1], [0]]]

/-- The pressure field the source code computes from `counterField` (reversal along axis
0). -/
def counterCodeResult : Field3 :=
  [[[101325], [101325]], [[101325], [106325]]]

/-- The pressure field the specification describes for `counterField` (reversal along the
integration axis 1). -/
def counterClaimResult : Field3 :=
  [[[106325], [101325]], [[101325], [101325]]]

/-- A 1 x 1 x 1 field. -/
def unitField : Field3 := [[[5]]]

/-- A heat-pump group of one pump with the given group name. -/
def hpGroupParam (nm : String) : Parameter :=
  { name := nm,
    value := ParamValue.heatPumps
      { number := 1, injection_temp := InjectionValue.mm { min := 1, max := 2 },
        injection_rate := InjectionValue.mm { min := 1, max := 2 } } }

/-- Draws chosen so the two generated pumps land on distinct cells of a 4 x 1 x 1 grid. -/
def clashDraws : ℕ → ℝ :=
  fun n => if n = 0 then 1 / 8 else if n = 3 then 3 / 8 else 1 / 2

/-- The generator built over `clashDraws`. -/
def clashRng : Rng :=
  { stream := clashDraws, perms := fun _ _ => Equiv.refl _, pos := 0 }

/-- A state with two heat-pump groups named hp and hp_0 on a 4-cell grid: expanding hp
yields the name hp_0, which collides with the existing group key hp_0. -/
def clashState : State :=
  { general := { baseConfig with number_cells := [4, 1, 1] },
    hydrogeological_parameters := [],
    heatpump_parameters := [("hp", hpGroupParam "hp"), ("hp_0", hpGroupParam "hp_0")],
    datapoints := [],
    rng := clashRng }

/-- An explicit pump parameter named hp_0 at cell [1, 1, 1]. -/
def clashPumpOne : Parameter :=
  { name := "hp_0",
    value := ParamValue.heatPump
      { location := some [1, 1, 1], injection_temp := InjectionValue.mm { min := 1, max := 2 },
        injection_rate := InjectionValue.mm { min := 1, max := 2 } } }

/-- A generated-shape pump parameter named hp_0_0 at cell [2, 1, 1]. -/
def clashPumpTwo : Parameter :=
  { name := "hp_0_0",
    value := ParamValue.heatPump
      { location := some [2, 1, 1], injection_temp := InjectionValue.mm { min := 1, max := 2 },
        injection_rate := InjectionValue.mm { min := 1, max := 2 } } }

/-- The state `generate_heatpumps` produces from `clashState`: both groups expanded,
generator advanced. -/
def clashExpandedState : State :=
  { clashState with
      heatpump_parameters := [("hp_0", clashPumpOne), ("hp_0_0", clashPumpTwo)],
      rng := { clashRng with pos := 6 } }

/-- A state whose explicit pump is already named hp_0 while a group named hp is to be
expanded: the generated name hp_0 clashes with the explicit name. -/
def explicitClashState : State :=
  { general := { baseConfig with number_cells := [4, 1, 1] },
    hydrogeological_parameters := [],
    heatpump_parameters := [("hp_0", clashPumpOne), ("hp", hpGroupParam "hp")],
    datapoints := [],
    rng := clashRng }

/-- A state whose two explicit heat pumps share the location [1, 1, 1]. -/
def duplicateLocationState : State :=
  { general := baseConfig,
    hydrogeological_parameters := partialPathState.hydrogeological_parameters,
    heatpump_parameters :=
      [("hp1", clashPumpOne), ("hp2", { clashPumpOne with name := "hp2" })],
    datapoints := [],
    rng := halfRng }

/-- A three-datapoint state with two scalar parameters per datapoint, to be shuffled. -/
def shuffleState : State :=
  { general := { baseConfig with number_datapoints := 2 },
    hydrogeological_parameters := [],
    heatpump_parameters := [],
    datapoints :=
      [{ index := 0, data := [("a", scalarData "a" 1)] },
       { index := 1, data := [("a", scalarData "a" 2)] }],
    rng := halfRng }

/-- The expected result of shuffling `shuffleState` under identity permutations. -/
def shuffleStateShuffled : State :=
  { shuffleState with rng := { halfRng with pos := 1 } }

/-- Two generators drawing from the same underlying streams; they differ at most in
position. An `Rng` reachable from the seeded one without re-seeding satisfies this. -/
def SameSource (a b : Rng) : Prop :=
  b.stream = a.stream ∧ b.perms = a.perms

/-- A one-datapoint state whose single parameter is FIXED, so no randomness is consumed. -/
def fixedScalarState : State :=
  { general := { baseConfig with shuffle_datapoints := false },
    hydrogeological_parameters :=
      [("temperature", { name := "temperature", value := ParamValue.scalar 10.6 })],
    heatpump_parameters := [],
    datapoints := [],
    rng := halfRng }

/-- The datapoint list `vary_params` produces from `fixedScalarState`. -/
def fixedScalarResult : State :=
  { fixedScalarState with
      datapoints := [{ index := 0, data := [("temperature", scalarData "temperature" 10.6)] }] }

/-- A state requesting three datapoints. -/
def threeDatapointState : State :=
  { general := { baseConfig with number_datapoints := 3 },
    hydrogeological_parameters := [],
    heatpump_parameters := [],
    datapoints := [],
    rng := halfRng }

/-- Claim C5: contradicted. The all-or-none file-path validator ACCEPTS a state in which
only `permeability` is a deferred file reference while `pressure_gradient` and
`temperature` are not: the hard failure the claim requires is commented out in the source
(lines 683-687 of `vampireman/data_structures.py`), so partial compliance passes validation
unchanged. -/
theorem check_all_or_none_accepts_partial_file_paths :
    check_all_or_none_file_paths partialPathState = Except.ok partialPathState := by
  rfl

/-- Claim C3: contradicted. With `number_datapoints = 1`, resolving a CONST MinMax
parameter evaluates `index / (N - 1)` with `N - 1 = 0`; there is no special case for `N =
1`, so the resolver raises ZeroDivisionError (UNIFORM and LOG branches alike) instead of
returning the min value. -/
theorem vary_parameter_single_datapoint_divides_by_zero :
    vary_parameter singleDatapointState constRampParameter 0 = Except.error PyErr.zeroDivision
      ∧ vary_parameter singleDatapointState constLogRampParameter 0 = Except.error PyErr.zeroDivision := by
  constructor <;> rfl

/-- The coordinate-conversion loop agrees with the specification-side per-pump map whenever
every entry is a single heat pump. -/
theorem calcHpCoordsList_eq_map (resolution : ℝ) (l : List (String × Parameter))
    (hall : ∀ kv ∈ l, ∃ hp : HeatPump, kv.2.value = ParamValue.heatPump hp) :
    calcHpCoordsList resolution l = Except.ok (l.map (hpCoordinateSpec resolution)) := by
  induction l with
  | nil => rfl
  | cons kv rest ih =>
    obtain ⟨n, p⟩ := kv
    obtain ⟨hp, hhp⟩ := hall (n, p) (List.mem_cons_self _ rest)
    replace hhp : p.value = ParamValue.heatPump hp := hhp
    have ih' := ih (fun kv hkv => hall kv (List.mem_cons_of_mem _ hkv))
    cases hloc : hp.location with
    | none => simp [calcHpCoordsList, hhp, hloc, ih', hpCoordinateSpec, bind, Except.bind]
    | some loc => simp [calcHpCoordsList, hhp, hloc, ih', hpCoordinateSpec, div_eq_mul_inv, bind, Except.bind]

/-- Claim C9: `calculate_hp_coordinates` maps every heat-pump parameter through the
cell-center conversion `(idx - 1) * res + res / 2` on each non-null location component, and
the concrete pump at cell [16, 32, 1] with resolution 5 converts to physical coordinates
[77.5, 157.5, 2.5]. -/
theorem calculate_hp_coordinates_cell_center (s : State)
    (hall : ∀ kv ∈ s.heatpump_parameters, ∃ hp : HeatPump, kv.2.value = ParamValue.heatPump hp) :
    calculate_hp_coordinates s =
      Except.ok { s with heatpump_parameters :=
        s.heatpump_parameters.map (hpCoordinateSpec s.general.cell_resolution) }
    ∧ calcHpCoordsList 5 [("hp1", hpSixteenParam)]
      = Except.ok [("hp1", hpSixteenConvertedParam)] := by
  constructor
  · simp only [calculate_hp_coordinates, calcHpCoordsList_eq_map s.general.cell_resolution
      s.heatpump_parameters hall, Except.bind]
    rfl
  · simp only [calcHpCoordsList, hpSixteen, hpSixteenParam, hpSixteenConvertedParam,
      bind, Except.bind]
    norm_num

/-- Witness for C9: the conversion evaluated on the concrete one-pump state. -/
theorem calculate_hp_coordinates_cell_center_witness :
    calculate_hp_coordinates hpConversionState = Except.ok hpConversionStateExpected :=
  (calculate_hp_coordinates_cell_center hpConversionState
    (by intro kv hkv
        simp only [hpConversionState, List.mem_singleton] at hkv
        exact ⟨hpSixteen, by rw [hkv]; rfl⟩)).1

/-- Arithmetic fact: 10 to the real power 2 is 100. -/
theorem rpow_ten_two : (10 : ℝ) ^ (2 : ℝ) = 100 := by
  rw [show ((2 : ℝ)) = ((2 : ℕ) : ℝ) by norm_num, Real.rpow_natCast]
  norm_num

/-- Arithmetic fact: 10 to the real power -2 is 1/100. -/
theorem rpow_ten_neg_two : (10 : ℝ) ^ ((-2 : ℝ)) = 1 / 100 := by
  rw [show ((-2 : ℝ)) = -((2 : ℕ) : ℝ) by norm_num, Real.rpow_neg (by norm_num),
    Real.rpow_natCast]
  norm_num

/-- Arithmetic fact: log base 10 of 100 is 2. -/
theorem logb_ten_hundred : Real.logb 10 100 = 2 := by
  rw [← rpow_ten_two, Real.logb_rpow (by norm_num) (by norm_num)]

/-- Arithmetic fact: log base 10 of 1/100 is -2. -/
theorem logb_ten_hundredth : Real.logb 10 (1 / 100) = -2 := by
  rw [← rpow_ten_neg_two, Real.logb_rpow (by norm_num) (by norm_num)]

/-- Claim C2: for a CONST MinMax parameter and N >= 2 datapoints, index i resolves to
exactly `min + (i/(N-1))*(max-min)` under UNIFORM and `10 ^ (log10 min + (i/(N-1))*(log10
max - log10 min))` under LOG; at N = 3 the range [1, 5] resolves to [1, 3, 5] and the LOG
range [0.01, 100] resolves to [0.01, 1, 100]. The generator is returned unchanged. -/
theorem vary_parameter_const_interpolation (s : State) (name : String)
    (mn mx : ℝ) (i : ℕ) (hN : 2 ≤ s.general.number_datapoints) :
    (vary_parameter s (constParamU name mn mx) i
      = Except.ok (scalarData name
          (mn + (i : ℝ) / ((s.general.number_datapoints : ℝ) - 1) * (mx - mn)), s.rng))
    ∧ (vary_parameter s (constParamL name mn mx) i
      = Except.ok (scalarData name
          ((10 : ℝ) ^ (Real.logb 10 mn + (i : ℝ) / ((s.general.number_datapoints : ℝ) - 1)
            * (Real.logb 10 mx - Real.logb 10 mn))), s.rng))
    ∧ (s.general.number_datapoints = 3 →
        (vary_parameter s (constParamU name 1 5) 0 = Except.ok (scalarData name 1, s.rng))
        ∧ (vary_parameter s (constParamU name 1 5) 1 = Except.ok (scalarData name 3, s.rng))
        ∧ (vary_parameter s (constParamU name 1 5) 2 = Except.ok (scalarData name 5, s.rng))
        ∧ (vary_parameter s (constParamL name (1 / 100) 100) 0
            = Except.ok (scalarData name (1 / 100), s.rng))
        ∧ (vary_parameter s (constParamL name (1 / 100) 100) 1
            = Except.ok (scalarData name 1, s.rng))
        ∧ (vary_parameter s (constParamL name (1 / 100) 100) 2
            = Except.ok (scalarData name 100, s.rng))) := by
  have h1 : ¬s.general.number_datapoints = 1 := by omega
  have uni : ∀ (nm : String) (a b : ℝ) (j : ℕ),
      vary_parameter s (constParamU nm a b) j
        = Except.ok (scalarData nm
            (a + (j : ℝ) / ((s.general.number_datapoints : ℝ) - 1) * (b - a)), s.rng) := by
    intro nm a b j
    simp [vary_parameter, constParamU, h1, scalarData]
    ring
  have logc : ∀ (nm : String) (a b : ℝ) (j : ℕ),
      vary_parameter s (constParamL nm a b) j
        = Except.ok (scalarData nm
            ((10 : ℝ) ^ (Real.logb 10 a + (j : ℝ) / ((s.general.number_datapoints : ℝ) - 1)
              * (Real.logb 10 b - Real.logb 10 a))), s.rng) := by
    intro nm a b j
    simp [vary_parameter, constParamL, h1, scalarData]
    congr 1
    ring
  refine ⟨uni name mn mx i, logc name mn mx i, fun h3 => ?_⟩
  rw [uni name 1 5 0, uni name 1 5 1, uni name 1 5 2,
    logc name (1 / 100) 100 0, logc name (1 / 100) 100 1, logc name (1 / 100) 100 2, h3]
  refine ⟨by norm_num, by norm_num, by norm_num, ?_, ?_, ?_⟩
  · rw [show Real.logb 10 (1 / 100) + ((0 : ℕ) : ℝ) / ((3 : ℕ) - 1 : ℝ)
        * (Real.logb 10 100 - Real.logb 10 (1 / 100)) = (-2 : ℝ) by
      rw [logb_ten_hundred, logb_ten_hundredth]; norm_num]
    rw [rpow_ten_neg_two]
  · rw [show Real.logb 10 (1 / 100) + ((1 : ℕ) : ℝ) / ((3 : ℕ) - 1 : ℝ)
        * (Real.logb 10 100 - Real.logb 10 (1 / 100)) = (0 : ℝ) by
      rw [logb_ten_hundred, logb_ten_hundredth]; norm_num]
    rw [Real.rpow_zero]
  · rw [show Real.logb 10 (1 / 100) + ((2 : ℕ) : ℝ) / ((3 : ℕ) - 1 : ℝ)
        * (Real.logb 10 100 - Real.logb 10 (1 / 100)) = (2 : ℝ) by
      rw [logb_ten_hundred, logb_ten_hundredth]; norm_num]
    rw [rpow_ten_two]

/-- Index lemma for zipWith on real lists. -/
theorem getD_zipWith_real (f : ℝ → ℝ → ℝ) (a b : List ℝ) (k : ℕ)
    (ha : k < a.length) (hb : k < b.length) :
    (List.zipWith f a b).getD k 0 = f (a.getD k 0) (b.getD k 0) := by
  induction a generalizing b k with
  | nil => simp at ha
  | cons x xs ih =>
    cases b with
    | nil => simp at hb
    | cons y ys =>
      cases k with
      | zero => simp
      | succ k =>
        simp only [List.zipWith_cons_cons, List.getD_cons_succ]
        exact ih ys k (by simpa using ha) (by simpa using hb)

/-- Index lemma for mapping a constant function. -/
theorem getD_map_const (g : List ℝ) (k : ℕ) (hk : k < g.length) (x : ℝ) :
    (g.map (fun _ => x)).getD k 0 = x := by
  rw [List.getD_eq_getElem _ _ (by simpa using hk)]
  simp

/-- Entry formula for the column-integration loop: entry (t, k) of the result accumulates
the carried value plus the partial sums of rows 1..t at position k. -/
theorem integrateCols_getD (c : ℝ) (prev : List ℝ) (rest : List (List ℝ)) (t k : ℕ)
    (ht : t < rest.length) (hlen : ∀ r ∈ rest, r.length = prev.length)
    (hk : k < prev.length) :
    ((integrateCols c prev rest).getD t []).getD k 0
      = prev.getD k 0 + c * ∑ m ∈ Finset.range (t + 1), ((rest.getD m []).getD k 0) := by
  induction rest generalizing prev t with
  | nil => simp at ht
  | cons g rest' ih =>
    cases t with
    | zero =>
      simp only [integrateCols, List.getD_cons_zero]
      rw [getD_zipWith_real _ prev g k hk (by rw [hlen g (by simp)]; exact hk)]
      rw [Finset.sum_range_succ, Finset.sum_range_zero, List.getD_cons_zero]
      ring
    | succ t =>
      have hcur : (List.zipWith (fun p gk => p + gk * c) prev g).length = prev.length := by
        rw [List.length_zipWith, hlen g (by simp), min_self]
      simp only [integrateCols, List.getD_cons_succ]
      rw [ih (List.zipWith (fun p gk => p + gk * c) prev g) t (by simpa using ht)
        (fun r hr => by rw [hlen r (by simp [hr]), hcur]) (by rw [hcur]; exact hk)]
      rw [getD_zipWith_real _ prev g k hk (by rw [hlen g (by simp)]; exact hk)]
      rw [Finset.sum_range_succ' _ (t + 1)]
      simp only [List.getD_cons_succ, List.getD_cons_zero]
      ring

/-- Entry formula for one pressure slice: entry (j, k) is 101325 plus c times the sum of
gradient rows 1..j at position k. -/
theorem pressureRow_getD (c : ℝ) (row : List (List ℝ)) (n2 j k : ℕ)
    (hj : j < row.length) (hlen : ∀ q ∈ row, q.length = n2) (hk : k < n2) :
    ((pressureRow c row).getD j []).getD k 0
      = 101325 + c * ∑ m ∈ Finset.range j, ((row.getD (m + 1) []).getD k 0) := by
  cases row with
  | nil => simp at hj
  | cons g0 rest =>
    have hg0 : k < g0.length := by rw [hlen g0 (by simp)]; exact hk
    cases j with
    | zero =>
      simp only [pressureRow, List.getD_cons_zero, Finset.range_zero, Finset.sum_empty,
        mul_zero, add_zero]
      exact getD_map_const g0 k hg0 101325
    | succ t =>
      have hfirst : (g0.map (fun _ => (101325 : ℝ))).length = g0.length := by simp
      simp only [pressureRow, List.getD_cons_succ]
      rw [integrateCols_getD c _ rest t k (by simpa using hj)
        (fun r hr => by rw [hfirst, hlen r (by simp [hr]), hlen g0 (by simp)])
        (by rw [hfirst]; exact hg0)]
      rw [getD_map_const g0 k hg0]

/-- Index lemma: mapping `pressureRow` commutes with `getD`. -/
theorem getD_map_pressureRow (c : ℝ) (l : List (List (List ℝ))) (i : ℕ)
    (hi : i < l.length) :
    (l.map (pressureRow c)).getD i [] = pressureRow c (l.getD i []) := by
  rw [List.getD_eq_getElem _ _ (by simpa using hi), List.getD_eq_getElem _ _ hi,
    List.getElem_map]

/-- Index lemma for `List.reverse` under `getD`. -/
theorem getD_reverse_list (l : List (List (List ℝ))) (i : ℕ) (hi : i < l.length) :
    l.reverse.getD i [] = l.getD (l.length - 1 - i) [] := by
  rw [List.getD_eq_getElem _ _ (by simpa using hi),
    List.getD_eq_getElem _ _ (by omega), List.getElem_reverse]

/-- Claim C4, counterexample. First, the path the claim describes cannot produce a value at
all: `vary_parameter` on a SPACE Perlin parameter named pressure_gradient raises
AssertionError, because `calc_pressure_from_gradient_field` asserts its parameter value is
a MinMax pair while `create_perlin_field` passes it the Perlin parameter unchanged. Second,
on a MinMax parameter the transform reverses axis 0, not the integration axis: on the 2 x 2
x 1 field distinguishing the axes, the code's result differs from the field the claim
describes. -/
theorem calc_pressure_reverses_wrong_axis :
    vary_parameter singleDatapointState pgPerlinParam 0 = Except.error PyErr.assertionError
    ∧ calc_pressure_from_gradient_field counterField singleDatapointState pgMinMaxParam
        = Except.ok counterCodeResult
    ∧ calcPressureIntegrationAxisReversed counterField singleDatapointState pgMinMaxParam
        = Except.ok counterClaimResult
    ∧ counterCodeResult ≠ counterClaimResult := by
  refine ⟨?_, ?_, ?_, ?_⟩
  · simp [vary_parameter, create_perlin_field, calc_pressure_from_gradient_field,
      pgPerlinParam, Rng.random3, Rng.random]
  · norm_num [calc_pressure_from_gradient_field, pgMinMaxParam, counterField,
      counterCodeResult, singleDatapointState, baseConfig, rescaleField, fieldMap,
      fieldMin, fieldMax, fieldFlatten, List.min?, List.max?, min_def, max_def,
      pressureRow, integrateCols]
  · norm_num [calcPressureIntegrationAxisReversed, pgMinMaxParam, counterField,
      counterClaimResult, singleDatapointState, baseConfig, rescaleField, fieldMap,
      fieldMin, fieldMax, fieldFlatten, List.min?, List.max?, min_def, max_def,
      pressureRow, integrateCols]
  · norm_num [counterCodeResult, counterClaimResult]

/-- Claim C4, amended behaviour. (1) On the only call path (a SPACE-varied Perlin parameter
named pressure_gradient) the resolver raises AssertionError. (2) Called directly with a
MinMax parameter, the transform rescales to [min, max], integrates along axis 1 from the
101325 Pa reference, and reverses AXIS 0: entry (i, j, k) of the result equals 101325 plus
cell_resolution * 1000 times the sum over m < j of the rescaled gradient at (len - 1 - i, m
+ 1, k). -/
theorem calc_pressure_gradient_transform_amended :
    (∀ (s : State) (p : Parameter) (i : ℕ) (pv : ValuePerlin),
      p.vary = Vary.SPACE → p.value = ParamValue.perlin pv →
      p.name = "pressure_gradient" →
      vary_parameter s p i = Except.error PyErr.assertionError)
    ∧ (∀ (field : Field3) (s : State) (p : Parameter) (v : ValueMinMax)
        (n1 n2 i j k : ℕ),
        p.value = ParamValue.minMax v →
        (∀ r ∈ rescaleField field v.min v.max, r.length = n1) →
        (∀ r ∈ rescaleField field v.min v.max, ∀ q ∈ r, q.length = n2) →
        i < (rescaleField field v.min v.max).length → j < n1 → k < n2 →
        ∃ pf, calc_pressure_from_gradient_field field s p = Except.ok pf
          ∧ ((pf.getD i []).getD j []).getD k 0
              = 101325 + s.general.cell_resolution * 1000 *
                  ∑ m ∈ Finset.range j,
                    ((((rescaleField field v.min v.max).getD
                        ((rescaleField field v.min v.max).length - 1 - i) []).getD
                      (m + 1) []).getD k 0)) := by
  constructor
  · intro s p i pv hvary hval hname
    cases hfreq : pv.frequency with
    | mm w =>
      simp [vary_parameter, create_perlin_field, calc_pressure_from_gradient_field,
        hval, hvary, hname, hfreq]
    | vec fs =>
      simp [vary_parameter, create_perlin_field, calc_pressure_from_gradient_field,
        hval, hvary, hname, hfreq]
  · intro field s p v n1 n2 i j k hval hrow hinner hi hj hk
    set g' := rescaleField field v.min v.max with hg'
    set c := s.general.cell_resolution * 1000 with hc
    refine ⟨(g'.map (pressureRow c)).reverse, ?_, ?_⟩
    · simp [calc_pressure_from_gradient_field, hval]
    · have hlenmap : (g'.map (pressureRow c)).length = g'.length := by simp
      have hi' : i < (g'.map (pressureRow c)).reverse.length := by simpa using hi
      have hidx : g'.length - 1 - i < g'.length := by omega
      rw [getD_reverse_list _ i (by simpa using hi)]
      rw [hlenmap, getD_map_pressureRow c g' (g'.length - 1 - i) hidx]
      have hmem : g'.getD (g'.length - 1 - i) [] ∈ g' := by
        rw [List.getD_eq_getElem _ _ hidx]
        exact List.getElem_mem hidx
      exact pressureRow_getD c _ n2 j k (by rw [hrow _ hmem]; exact hj)
        (fun q hq => hinner _ hmem q hq) hk

/-- Witness for the amended C4 theorem on concrete inputs. -/
theorem calc_pressure_gradient_transform_amended_witness :
    vary_parameter hpConversionState pgPerlinParam 1 = Except.error PyErr.assertionError
    ∧ ∃ pf, calc_pressure_from_gradient_field unitField hpConversionState pgMinMaxParam
        = Except.ok pf ∧ ((pf.getD 0 []).getD 0 []).getD 0 0 = 101325 := by
  constructor
  · exact calc_pressure_gradient_transform_amended.1 hpConversionState pgPerlinParam 1
      _ rfl rfl rfl
  · have h := calc_pressure_gradient_transform_amended.2 unitField hpConversionState
      pgMinMaxParam { min := 0, max := 1 } 1 1 0 0 0 rfl
      (by norm_num [rescaleField, fieldMap, unitField])
      (by norm_num [rescaleField, fieldMap, unitField])
      (by norm_num [rescaleField, fieldMap, unitField])
      (by norm_num) (by norm_num)
    obtain ⟨pf, hpf, hval⟩ := h
    exact ⟨pf, hpf, by rw [hval]; norm_num⟩

/-- A key occurring in the association list is found by `dictGet`. -/
theorem dictGet_isSome_of_mem_keys (d : List (String × α)) (k : String)
    (h : k ∈ d.map Prod.fst) : (dictGet d k).isSome = true := by
  induction d with
  | nil => simp at h
  | cons kv rest ih =>
    by_cases hk : kv.1 = k
    · simp [dictGet, hk]
    · simp only [List.map_cons, List.mem_cons] at h
      rcases h with h | h
      · exact absurd h.symm hk
      · simp [dictGet, hk, ih h]

/-- Concrete evaluation: expanding the two groups of `clashState` succeeds, producing keys
hp_0 and hp_0_0 at distinct cells. -/
theorem generate_heatpumps_clashState_eval :
    generate_heatpumps clashState 1 = Except.ok clashExpandedState := by
  have c1 : (⌈(1 : ℝ) / 2⌉ : ℤ) = 1 := by
    rw [Int.ceil_eq_iff]
    norm_num
  have c2 : (⌈(3 : ℝ) / 2⌉ : ℤ) = 2 := by
    rw [Int.ceil_eq_iff]
    norm_num
  have ts : toString (0 : ℕ) = "0" := rfl
  have a1 : ("hp" ++ "_" ++ "0" : String) = "hp_0" := rfl
  have a2 : ("hp_0" ++ "_" ++ "0" : String) = "hp_0_0" := rfl
  have ne1 : ("hp" : String) ≠ "hp_0" := by decide
  have ne2 : ("hp" : String) ≠ "hp_0_0" := by decide
  have ne3 : ("hp_0" : String) ≠ "hp_0_0" := by decide
  norm_num [ts, a1, a2, ne1, ne2, ne3, generate_heatpumps, clashState, clashExpandedState,
    clashRng, clashDraws,
    seedExplicitPumps, genGroupsLoop, genGroup, hpGroupParam, redrawLoop,
    are_duplicate_locations_in_heatpumps, areDupLoop, heatPumpValues,
    generate_heatpump_location, dictGet, locTriple, Rng.random3, Rng.random,
    baseConfig, clashPumpOne, clashPumpTwo, c1, c2, bind, Except.bind]

/-- Claim C6, counterexample. Expanding `clashState` SUCCEEDS even though the generated
name hp_0 collides with the existing parameter key hp_0: the clash check requires the name
to occur in both the original dict AND the newly generated dict (`and`, source line 105),
so a collision with an existing key alone is not detected; the group keyed hp_0 is simply
also expanded (to hp_0_0). -/
theorem generate_heatpumps_accepts_group_name_clash :
    (generate_heatpumps clashState 1).map (fun s => s.heatpump_parameters.map Prod.fst)
      = Except.ok ["hp_0", "hp_0_0"]
    ∧ (dictGet clashState.heatpump_parameters "hp_0").isSome = true := by
  rw [generate_heatpumps_clashState_eval]
  constructor
  · rfl
  · rfl

/-- Claim C6, amended behaviour: the expansion DOES fail with the fatal error naming the
clashing pump when the generated name `{group}_0` collides with an explicit pump occurring
before the group, since the explicit pump is seeded into the generated dict and the name is
then in both dicts. -/
theorem generate_heatpumps_name_clash_raises (state : State) (fuel : ℕ)
    (pre : List (String × Parameter)) (gkey : String) (gparam : Parameter)
    (post : List (String × Parameter)) (g : HeatPumps)
    (hsplit : state.heatpump_parameters = pre ++ (gkey, gparam) :: post)
    (hpre : ∀ kv ∈ pre, ∃ hp, kv.2.value = ParamValue.heatPump hp)
    (hg : gparam.value = ParamValue.heatPumps g)
    (hnum : 1 ≤ g.number)
    (hclash : ∃ kv ∈ pre, kv.1 = gparam.name ++ "_0" ∧ kv.2.name = gparam.name ++ "_0") :
    generate_heatpumps state fuel
      = Except.error (PyErr.valueError
          ("There is a naming clash for generated heatpump " ++ (gparam.name ++ "_0"))) := by
  obtain ⟨kv0, hkv0mem, hkey, hname⟩ := hclash
  have hold : (dictGet state.heatpump_parameters (gparam.name ++ "_0")).isSome = true := by
    apply dictGet_isSome_of_mem_keys
    rw [hsplit]
    exact List.mem_map.2 ⟨kv0, List.mem_append_left _ hkv0mem, hkey⟩
  have hnew : (dictGet (seedExplicitPumps state.heatpump_parameters)
      (gparam.name ++ "_0")).isSome = true := by
    apply dictGet_isSome_of_mem_keys
    obtain ⟨hp, hhp⟩ := hpre kv0 hkv0mem
    refine List.mem_map.2 ⟨(kv0.2.name, kv0.2), ?_, hname⟩
    refine List.mem_filterMap.2 ⟨kv0, ?_, by rw [hhp]⟩
    rw [hsplit]
    exact List.mem_append_left _ hkv0mem
  have hskip : ∀ (l : List (String × Parameter)),
      (∀ kv ∈ l, ∃ hp, kv.2.value = ParamValue.heatPump hp) →
      ∀ (new : List (String × Parameter)) (rng : Rng),
      genGroupsLoop state fuel (l ++ (gkey, gparam) :: post) new rng
        = genGroupsLoop state fuel ((gkey, gparam) :: post) new rng := by
    intro l hl
    induction l with
    | nil => intro new rng; rfl
    | cons kv rest ih =>
      intro new rng
      obtain ⟨k', p'⟩ := kv
      obtain ⟨hp, hhp⟩ := hl (k', p') (List.mem_cons_self _ _)
      replace hhp : p'.value = ParamValue.heatPump hp := hhp
      simp only [List.cons_append, genGroupsLoop, hhp]
      exact ih (fun kv h => hl kv (List.mem_cons_of_mem _ h)) new rng
  have hname_eq : gparam.name ++ "_" ++ toString (0 : ℕ) = gparam.name ++ "_0" := by
    rw [String.append_assoc]
    rfl
  obtain ⟨m, hm⟩ : ∃ m, g.number = m + 1 := ⟨g.number - 1, by omega⟩
  rw [hsplit] at hnew
  simp only [generate_heatpumps, bind, Except.bind]
  rw [hsplit, hskip pre hpre]
  simp only [genGroupsLoop, hg, hm, List.range_succ_eq_map, genGroup, bind, Except.bind]
  rw [hname_eq, if_pos ⟨hold, hnew⟩]

/-- Witness for the amended C6 theorem: an explicit pump named hp_0 before a group named hp
makes expansion fail with the naming-clash error. -/
theorem generate_heatpumps_name_clash_raises_witness :
    generate_heatpumps explicitClashState 1
      = Except.error (PyErr.valueError
          ("There is a naming clash for generated heatpump " ++ ("hp" ++ "_0"))) := by
  refine generate_heatpumps_name_clash_raises explicitClashState 1
    [("hp_0", clashPumpOne)] "hp" (hpGroupParam "hp") []
    { number := 1, injection_temp := InjectionValue.mm { min := 1, max := 2 },
      injection_rate := InjectionValue.mm { min := 1, max := 2 } }
    rfl ?_ rfl (by norm_num) ⟨("hp_0", clashPumpOne), by simp, by rfl, by rfl⟩
  intro kv h
  simp only [List.mem_singleton] at h
  subst h
  exact ⟨_, rfl⟩

/-- Appending a pump parameter appends its value to the extracted pump list. -/
theorem heatPumpValues_snoc_pump (new : List (String × Parameter)) (name : String)
    (hp : HeatPump) (gvary : Vary) :
    heatPumpValues (new ++ [(name, { name := name, value := ParamValue.heatPump hp, vary := gvary })])
      = heatPumpValues new ++ [hp] := by
  simp [heatPumpValues, List.filterMap_append]

/-- When the retry loop returns a pump, its location collides with no already-assigned
location. -/
theorem redrawLoop_sound (state : State) (others : List HeatPump) :
    ∀ (fuel : ℕ) (hp : HeatPump) (rng : Rng) (res : HeatPump × Rng),
    redrawLoop state others hp fuel rng = some res →
    are_duplicate_locations_in_heatpumps (others ++ [res.1]) = false := by
  intro fuel
  induction fuel with
  | zero => intro hp rng res h; simp [redrawLoop] at h
  | succ fuel ih =>
    intro hp rng res h
    unfold redrawLoop at h
    cases hd : are_duplicate_locations_in_heatpumps (others ++ [hp]) with
    | true =>
      rw [hd] at h
      simp only [if_true] at h
      exact ih _ _ res h
    | false =>
      rw [hd] at h
      simp only [if_false] at h
      have hres : (hp, rng) = res := by
        cases h
        rfl
      rw [← hres]
      exact hd

/-- Group expansion preserves the no-duplicate-location invariant of the accumulated pump
list. -/
theorem genGroup_no_dup (state : State) (gname : String) (g : HeatPumps)
    (gvary : Vary) (fuel : ℕ) :
    ∀ (idxs : List ℕ) (new : List (String × Parameter)) (rng : Rng)
      (res : List (String × Parameter) × Rng),
    genGroup state gname g gvary fuel idxs new rng = Except.ok res →
    (idxs = [] → res.1 = new)
    ∧ (idxs ≠ [] →
        are_duplicate_locations_in_heatpumps (heatPumpValues res.1) = false) := by
  intro idxs
  induction idxs with
  | nil =>
    intro new rng res h
    simp only [genGroup] at h
    refine ⟨fun _ => ?_, fun hcon => absurd rfl hcon⟩
    cases h
    rfl
  | cons idx rest ih =>
    intro new rng res h
    refine ⟨fun hcon => by simp at hcon, fun _ => ?_⟩
    unfold genGroup at h
    by_cases hcl : (dictGet state.heatpump_parameters (gname ++ "_" ++ toString idx)).isSome = true
        ∧ (dictGet new (gname ++ "_" ++ toString idx)).isSome = true
    · rw [if_pos hcl] at h
      cases h
    · rw [if_neg hcl] at h
      simp only [] at h
      cases hrd : redrawLoop state (heatPumpValues new)
          { location := some (generate_heatpump_location { state with rng := rng }).1,
            injection_temp := g.injection_temp, injection_rate := g.injection_rate }
          fuel (generate_heatpump_location { state with rng := rng }).2 with
      | none => rw [hrd] at h; cases h
      | some pr =>
        rw [hrd] at h
        have hdup := redrawLoop_sound state (heatPumpValues new) fuel _ _ pr hrd
        have hrec := ih _ pr.2 res h
        cases rest with
        | nil =>
          rw [hrec.1 rfl, heatPumpValues_snoc_pump]
          exact hdup
        | cons i2 r2 => exact hrec.2 (by simp)

/-- The outer expansion loop preserves the no-duplicate-location invariant. -/
theorem genGroupsLoop_no_dup (state : State) (fuel : ℕ) :
    ∀ (ps : List (String × Parameter)) (new : List (String × Parameter)) (rng : Rng)
      (res : List (String × Parameter) × Rng),
    genGroupsLoop state fuel ps new rng = Except.ok res →
    (are_duplicate_locations_in_heatpumps (heatPumpValues new) = false
      ∨ ∃ kv ∈ ps, ∃ g : HeatPumps, kv.2.value = ParamValue.heatPumps g ∧ 1 ≤ g.number) →
    are_duplicate_locations_in_heatpumps (heatPumpValues res.1) = false := by
  intro ps
  induction ps with
  | nil =>
    intro new rng res h hyp
    simp only [genGroupsLoop] at h
    have hres : res.1 = new := by cases h; rfl
    rw [hres]
    rcases hyp with hyp | ⟨kv, hkv, _⟩
    · exact hyp
    · simp at hkv
  | cons kv ps ih =>
    intro new rng res h hyp
    obtain ⟨k, p⟩ := kv
    cases hv : p.value with
    | heatPump hp =>
      simp only [genGroupsLoop, hv] at h
      refine ih new rng res h ?_
      rcases hyp with hyp | ⟨kv', hkv', g', hg', hn'⟩
      · exact Or.inl hyp
      · rcases List.mem_cons.1 hkv' with rfl | hmem
        · rw [hv] at hg'
          cases hg'
        · exact Or.inr ⟨kv', hmem, g', hg', hn'⟩
    | heatPumps g =>
      simp only [genGroupsLoop, hv, bind, Except.bind] at h
      cases hgen : genGroup state p.name g p.vary fuel (List.range g.number) new rng with
      | error e => rw [hgen] at h; cases h
      | ok pr =>
        rw [hgen] at h
        have hg := genGroup_no_dup state p.name g p.vary fuel _ new rng pr hgen
        cases hn : g.number with
        | zero =>
          have hpr : pr.1 = new := hg.1 (by rw [hn]; rfl)
          refine ih pr.1 pr.2 res h ?_
          rcases hyp with hyp | ⟨kv', hkv', g', hg', hn'⟩
          · exact Or.inl (by rw [hpr]; exact hyp)
          · rcases List.mem_cons.1 hkv' with rfl | hmem
            · have hgg : g' = g := by
                rw [hv] at hg'
                cases hg'
                rfl
              rw [hgg] at hn'
              omega
            · exact Or.inr ⟨kv', hmem, g', hg', hn'⟩
        | succ m =>
          have hpr := hg.2 (by rw [hn]; simp [List.range_succ_eq_map])
          exact ih pr.1 pr.2 res h (Or.inl hpr)
    | scalar x => simp only [genGroupsLoop, hv] at h; cases h
    | intList xs => simp only [genGroupsLoop, hv] at h; cases h
    | perlin pv => simp only [genGroupsLoop, hv] at h; cases h
    | minMax v => simp only [genGroupsLoop, hv] at h; cases h
    | path pth => simp only [genGroupsLoop, hv] at h; cases h
    | array f => simp only [genGroupsLoop, hv] at h; cases h

/-- The duplicate-scan returns false exactly when the non-null location triples are
pairwise distinct. -/
theorem areDupLoop_false_iff (hps : List HeatPump) :
    ∀ (seen : List (ℝ × ℝ × ℝ)) (dup : Bool),
    areDupLoop seen dup hps = false ↔
      (dup = false ∧ ((hps.filterMap HeatPump.location).map locTriple).Nodup
        ∧ ∀ t ∈ (hps.filterMap HeatPump.location).map locTriple, t ∉ seen) := by
  induction hps with
  | nil => intro seen dup; simp [areDupLoop]
  | cons hp rest ih =>
    intro seen dup
    cases hloc : hp.location with
    | none => simp [areDupLoop, hloc, ih]
    | some loc =>
      have hfm : List.filterMap HeatPump.location (hp :: rest)
          = loc :: List.filterMap HeatPump.location rest := by
        simp [List.filterMap_cons, hloc]
      rw [hfm, List.map_cons]
      simp only [areDupLoop, hloc]
      by_cases hm : locTriple loc ∈ seen
      · rw [if_pos hm, ih seen true]
        constructor
        · intro hcon
          exact absurd hcon.1 (by simp)
        · rintro ⟨_, _, hseen⟩
          exact absurd hm (hseen _ (List.mem_cons_self _ _))
      · rw [if_neg hm, ih (locTriple loc :: seen) dup]
        constructor
        · rintro ⟨hdup, hnd, hseen⟩
          refine ⟨hdup, List.nodup_cons.2
            ⟨fun hmem => (hseen _ hmem) (List.mem_cons_self _ _), hnd⟩, ?_⟩
          intro t ht
          rcases List.mem_cons.1 ht with rfl | ht'
          · exact hm
          · exact fun hts => (hseen t ht') (List.mem_cons.2 (Or.inr hts))
        · rintro ⟨hdup, hnd, hseen⟩
          obtain ⟨hhead, hnd'⟩ := List.nodup_cons.1 hnd
          refine ⟨hdup, hnd', ?_⟩
          intro t ht hts
          rcases List.mem_cons.1 hts with rfl | hts'
          · exact hhead ht
          · exact (hseen t (List.mem_cons.2 (Or.inr ht))) hts'

/-- Claim C8: (1) whenever `generate_heatpumps` succeeds on a state containing at least one
nonempty group, no two pumps of the expanded dict share a resolved location — each
generated location is redrawn until it collides with nothing already assigned; (2) the
duplicate check returns false exactly when the resolved location triples are pairwise
distinct; (3) the validation gate raises the hard duplicate-location error on any state
whose pumps share a location. -/
theorem generate_heatpumps_no_duplicate_locations :
    (∀ (state : State) (fuel : ℕ) (s' : State),
      (∃ kv ∈ state.heatpump_parameters, ∃ g : HeatPumps,
        kv.2.value = ParamValue.heatPumps g ∧ 1 ≤ g.number) →
      generate_heatpumps state fuel = Except.ok s' →
      are_duplicate_locations_in_heatpumps (heatPumpValues s'.heatpump_parameters) = false)
    ∧ (∀ hps : List HeatPump,
        are_duplicate_locations_in_heatpumps hps = false
          ↔ ((hps.filterMap HeatPump.location).map locTriple).Nodup)
    ∧ (∀ s : State,
        (dictGet s.hydrogeological_parameters "permeability").isSome = true →
        (dictGet s.hydrogeological_parameters "pressure_gradient").isSome = true →
        (dictGet s.hydrogeological_parameters "temperature").isSome = true →
        are_duplicate_locations_in_heatpumps (heatPumpValues s.heatpump_parameters) = true →
        validation_stage s
          = Except.error (PyErr.valueError "Duplicate HeatPump location detected!")) := by
  refine ⟨?_, ?_, ?_⟩
  · intro state fuel s' hgroup h
    simp only [generate_heatpumps, bind, Except.bind] at h
    cases hloop : genGroupsLoop state fuel state.heatpump_parameters
        (seedExplicitPumps state.heatpump_parameters) state.rng with
    | error e => rw [hloop] at h; cases h
    | ok pr =>
      rw [hloop] at h
      have hs' : s'.heatpump_parameters = pr.1 := by
        cases h
        rfl
      rw [hs']
      exact genGroupsLoop_no_dup state fuel state.heatpump_parameters _ state.rng pr hloop
        (Or.inr hgroup)
  · intro hps
    rw [are_duplicate_locations_in_heatpumps, areDupLoop_false_iff]
    simp
  · intro s h1 h2 h3 hdup
    obtain ⟨v1, hv1⟩ := Option.isSome_iff_exists.mp h1
    obtain ⟨v2, hv2⟩ := Option.isSome_iff_exists.mp h2
    obtain ⟨v3, hv3⟩ := Option.isSome_iff_exists.mp h3
    simp [validation_stage, hv1, hv2, hv3, hdup]

/-- Witness for C8: the expanded clash state has pairwise-distinct locations, and the state
with two pumps at cell [1, 1, 1] is rejected by validation. -/
theorem generate_heatpumps_no_duplicate_locations_witness :
    are_duplicate_locations_in_heatpumps
        (heatPumpValues clashExpandedState.heatpump_parameters) = false
    ∧ (((heatPumpValues clashExpandedState.heatpump_parameters).filterMap
        HeatPump.location).map locTriple).Nodup
    ∧ validation_stage duplicateLocationState
        = Except.error (PyErr.valueError "Duplicate HeatPump location detected!") := by
  have ha := generate_heatpumps_no_duplicate_locations.1 clashState 1 clashExpandedState
    ⟨("hp", hpGroupParam "hp"), by simp [clashState], _, rfl, by norm_num [hpGroupParam]⟩
    generate_heatpumps_clashState_eval
  refine ⟨ha, (generate_heatpumps_no_duplicate_locations.2.1 _).mp ha, ?_⟩
  refine generate_heatpumps_no_duplicate_locations.2.2 duplicateLocationState rfl rfl rfl ?_
  norm_num [are_duplicate_locations_in_heatpumps, areDupLoop, heatPumpValues,
    duplicateLocationState, clashPumpOne, locTriple]

/-- Reading back the key just written. -/
theorem dictGet_dictSet_self (d : List (String × α)) (k : String) (v : α) :
    dictGet (dictSet d k v) k = some v := by
  induction d with
  | nil => simp [dictGet, dictSet]
  | cons kv rest ih =>
    by_cases hk : kv.1 = k
    · simp [dictGet, dictSet, hk]
    · simp [dictGet, dictSet, hk, ih]

/-- Writing one key leaves the others unchanged. -/
theorem dictGet_dictSet_ne (d : List (String × α)) (k k' : String) (v : α)
    (h : k ≠ k') : dictGet (dictSet d k v) k' = dictGet d k' := by
  induction d with
  | nil => simp [dictGet, dictSet, h]
  | cons kv rest ih =>
    by_cases hk : kv.1 = k
    · simp [dictGet, dictSet, hk, h]
    · by_cases hk' : kv.1 = k'
      · simp [dictGet, dictSet, hk, hk', Ne.symm h]
      · simp [dictGet, dictSet, hk, hk', ih]

/-- Writing an existing key preserves the key list. -/
theorem dictSet_keys (d : List (String × α)) (k : String) (v : α)
    (h : k ∈ d.map Prod.fst) : (dictSet d k v).map Prod.fst = d.map Prod.fst := by
  induction d with
  | nil => simp at h
  | cons kv rest ih =>
    by_cases hk : kv.1 = k
    · simp [dictSet, hk]
    · simp only [List.map_cons, List.mem_cons] at h
      rcases h with h | h
      · exact absurd h.symm hk
      · simp [dictSet, hk, ih h]

/-- A shuffled list is a permutation of the original. -/
theorem shuffleList_perm (r : Rng) (xs : List α) : (r.shuffleList xs).1.Perm xs := by
  show (applyPerm xs (r.perms r.pos xs.length)).Perm xs
  unfold applyPerm
  have h : (List.ofFn (fun i => xs.get ((r.perms r.pos xs.length) i)))
      = List.ofFn (xs.get ∘ (r.perms r.pos xs.length)) := rfl
  rw [h]
  exact (Equiv.Perm.ofFn_comp_perm (r.perms r.pos xs.length) xs.get).trans
    (by rw [List.ofFn_get])

/-- Collecting a column succeeds exactly on the datapoints holding the name, and yields the
per-datapoint values. -/
theorem collectColumn_ok (dps : List DataPoint) (n : String)
    (h : ∀ dp ∈ dps, (dictGet dp.data n).isSome = true) :
    ∃ col, collectColumn dps n = Except.ok col
      ∧ col.map some = dps.map (fun dp => dictGet dp.data n)
      ∧ col.length = dps.length := by
  induction dps with
  | nil => exact ⟨[], rfl, rfl, rfl⟩
  | cons dp rest ih =>
    obtain ⟨d, hd⟩ := Option.isSome_iff_exists.mp (h dp (List.mem_cons_self _ _))
    obtain ⟨col, hcol, hmap, hlen⟩ := ih (fun dp h' => h dp (List.mem_cons_of_mem _ h'))
    refine ⟨d :: col, ?_, ?_, ?_⟩
    · simp [collectColumn, hd, hcol, bind, Except.bind]
    · simp [hmap, hd]
    · simp [hlen]

/-- The shuffling loop yields, for each name, a permutation of its collected column. -/
theorem shuffleColumns_ok (names : List String) :
    ∀ (rng : Rng) (dps : List DataPoint),
    (∀ n ∈ names, ∀ dp ∈ dps, (dictGet dp.data n).isSome = true) →
    ∃ res, shuffleColumns rng names dps = Except.ok res
      ∧ res.1.map Prod.fst = names
      ∧ (∀ e ∈ res.1, (e.2.map some).Perm (dps.map (fun dp => dictGet dp.data e.1)))
      ∧ (∀ e ∈ res.1, e.2.length = dps.length) := by
  induction names with
  | nil =>
    intro rng dps _
    exact ⟨([], rng), rfl, rfl, by simp, by simp⟩
  | cons n rest ih =>
    intro rng dps h
    obtain ⟨col, hcol, hmap, hlen⟩ := collectColumn_ok dps n
      (fun dp hdp => h n (List.mem_cons_self _ _) dp hdp)
    obtain ⟨res, hsc, hkeys, hperm, hlens⟩ :=
      ih ((rng.shuffleList col).2) dps
        (fun n' hn' dp hdp => h n' (List.mem_cons_of_mem _ hn') dp hdp)
    refine ⟨((n, (rng.shuffleList col).1) :: res.1, res.2), ?_, ?_, ?_, ?_⟩
    · simp [shuffleColumns, hcol, bind, Except.bind, hsc]
    · simp [hkeys]
    · intro e he
      rcases List.mem_cons.1 he with rfl | he'
      · have hp : ((rng.shuffleList col).1).Perm col := shuffleList_perm rng col
        have := (hp.map some)
        rw [hmap] at this
        exact this
      · exact hperm e he'
    · intro e he
      rcases List.mem_cons.1 he with rfl | he'
      · exact ((shuffleList_perm rng col).length_eq).trans hlen
      · exact hlens e he'

/-- The write-back of one column as a zipWith. -/
theorem writeColumn_eq_zipWith (name : String) :
    ∀ (N : ℕ) (dps : List DataPoint) (col : List Data),
    dps.length = N → col.length = N →
    writeColumn name dps col N
      = Except.ok (List.zipWith
          (fun dp d => { dp with data := dictSet dp.data name d }) dps col) := by
  intro N
  induction N with
  | zero =>
    intro dps col h1 h2
    rw [List.length_eq_zero] at h1 h2
    subst h1; subst h2
    rfl
  | succ m ih =>
    intro dps col h1 h2
    cases dps with
    | nil => simp at h1
    | cons dp dps' =>
      cases col with
      | nil => simp at h2
      | cons d col' =>
        simp only [writeColumn, bind, Except.bind,
          ih dps' col' (by simpa using h1) (by simpa using h2), List.zipWith_cons_cons]

/-- Write-back preserves the number of datapoints. -/
theorem zipWrite_length (name : String) :
    ∀ (dps : List DataPoint) (col : List Data), dps.length = col.length →
    (List.zipWith (fun dp d => { dp with data := dictSet dp.data name d }) dps col).length
      = dps.length := by
  intro dps col h
  rw [List.length_zipWith, h, min_self]

/-- Write-back preserves every datapoint index. -/
theorem zipWrite_index (name : String) :
    ∀ (dps : List DataPoint) (col : List Data), dps.length = col.length →
    (List.zipWith (fun dp d => { dp with data := dictSet dp.data name d }) dps col).map
        DataPoint.index = dps.map DataPoint.index := by
  intro dps
  induction dps with
  | nil => intro col h; simp
  | cons dp dps' ih =>
    intro col h
    cases col with
    | nil => simp at h
    | cons d col' => simp [ih col' (by simpa using h)]

/-- Write-back preserves every datapoint's key list. -/
theorem zipWrite_keys (name : String) :
    ∀ (dps : List DataPoint) (col : List Data), dps.length = col.length →
    (∀ dp ∈ dps, name ∈ dp.data.map Prod.fst) →
    (List.zipWith (fun dp d => { dp with data := dictSet dp.data name d }) dps col).map
        (fun dp => dp.data.map Prod.fst) = dps.map (fun dp => dp.data.map Prod.fst) := by
  intro dps
  induction dps with
  | nil => intro col h hk; simp
  | cons dp dps' ih =>
    intro col h hk
    cases col with
    | nil => simp at h
    | cons d col' =>
      simp only [List.zipWith_cons_cons, List.map_cons]
      rw [dictSet_keys _ _ _ (hk dp (List.mem_cons_self _ _)),
        ih col' (by simpa using h) (fun dp' h' => hk dp' (List.mem_cons_of_mem _ h'))]

/-- After write-back, the written name's column is the new column. -/
theorem zipWrite_column_self (name : String) :
    ∀ (dps : List DataPoint) (col : List Data), dps.length = col.length →
    (List.zipWith (fun dp d => { dp with data := dictSet dp.data name d }) dps col).map
        (fun dp => dictGet dp.data name) = col.map some := by
  intro dps
  induction dps with
  | nil =>
    intro col h
    have : col = [] := by
      rw [← List.length_eq_zero, ← h]
      rfl
    subst this
    rfl
  | cons dp dps' ih =>
    intro col h
    cases col with
    | nil => simp at h
    | cons d col' =>
      simp only [List.zipWith_cons_cons, List.map_cons, dictGet_dictSet_self,
        ih col' (by simpa using h)]

/-- Write-back of one name leaves the other names' columns unchanged. -/
theorem zipWrite_column_other (name n : String) (hne : name ≠ n) :
    ∀ (dps : List DataPoint) (col : List Data), dps.length = col.length →
    (List.zipWith (fun dp d => { dp with data := dictSet dp.data name d }) dps col).map
        (fun dp => dictGet dp.data n) = dps.map (fun dp => dictGet dp.data n) := by
  intro dps
  induction dps with
  | nil => intro col h; simp
  | cons dp dps' ih =>
    intro col h
    cases col with
    | nil => simp at h
    | cons d col' =>
      simp only [List.zipWith_cons_cons, List.map_cons,
        dictGet_dictSet_ne _ _ _ _ hne, ih col' (by simpa using h)]

/-- Writing all columns back: lengths, indices and key lists are preserved, and each name's
column becomes its shuffled column. -/
theorem writeColumns_spec :
    ∀ (cols : List (String × List Data)) (dps : List DataPoint) (N : ℕ),
    dps.length = N →
    (∀ e ∈ cols, e.2.length = N) →
    (∀ e ∈ cols, ∀ dp ∈ dps, e.1 ∈ dp.data.map Prod.fst) →
    ∃ dps', writeColumns dps cols N = Except.ok dps'
      ∧ dps'.length = N
      ∧ dps'.map DataPoint.index = dps.map DataPoint.index
      ∧ dps'.map (fun dp => dp.data.map Prod.fst)
          = dps.map (fun dp => dp.data.map Prod.fst)
      ∧ (∀ n, n ∉ cols.map Prod.fst →
          dps'.map (fun dp => dictGet dp.data n) = dps.map (fun dp => dictGet dp.data n))
      ∧ ((cols.map Prod.fst).Nodup →
          ∀ e ∈ cols, dps'.map (fun dp => dictGet dp.data e.1) = e.2.map some) := by
  intro cols
  induction cols with
  | nil =>
    intro dps N h1 _ _
    exact ⟨dps, rfl, h1, rfl, rfl, fun _ _ => rfl, fun _ e he => absurd he (by simp)⟩
  | cons c rest ih =>
    intro dps N h1 h2 h3
    obtain ⟨nme, col⟩ := c
    have hcl : col.length = N := h2 _ (List.mem_cons_self _ _)
    have hlen2 : dps.length = col.length := by rw [h1, hcl]
    have hw := writeColumn_eq_zipWith nme N dps col h1 hcl
    have hmidlen : (List.zipWith (fun dp d => { dp with data := dictSet dp.data nme d })
        dps col).length = N := by
      rw [zipWrite_length nme dps col hlen2, h1]
    have hmidkeys := zipWrite_keys nme dps col hlen2
      (fun dp hdp => h3 (nme, col) (List.mem_cons_self _ _) dp hdp)
    have h3' : ∀ e ∈ rest,
        ∀ dp ∈ List.zipWith (fun dp d => { dp with data := dictSet dp.data nme d }) dps col,
        e.1 ∈ dp.data.map Prod.fst := by
      intro e he dp hdp
      have hmem : dp.data.map Prod.fst
          ∈ (List.zipWith (fun dp d => { dp with data := dictSet dp.data nme d })
              dps col).map (fun dp => dp.data.map Prod.fst) :=
        List.mem_map_of_mem _ hdp
      rw [hmidkeys] at hmem
      obtain ⟨dp0, hdp0, hkeys0⟩ := List.mem_map.1 hmem
      rw [← hkeys0]
      exact h3 e (List.mem_cons_of_mem _ he) dp0 hdp0
    obtain ⟨dps', hwc, hlen', hidx', hkeys', hother', hself'⟩ :=
      ih (List.zipWith (fun dp d => { dp with data := dictSet dp.data nme d }) dps col) N
        hmidlen (fun e he => h2 e (List.mem_cons_of_mem _ he)) h3'
    refine ⟨dps', ?_, hlen', ?_, ?_, ?_, ?_⟩
    · simp [writeColumns, hw, bind, Except.bind, hwc]
    · rw [hidx', zipWrite_index nme dps col hlen2]
    · rw [hkeys', hmidkeys]
    · intro n hn
      simp only [List.map_cons, List.mem_cons, not_or] at hn
      rw [hother' n hn.2, zipWrite_column_other nme n (fun hc => hn.1 hc.symm) dps col hlen2]
    · intro hnd e he
      simp only [List.map_cons, List.nodup_cons] at hnd
      rcases List.mem_cons.1 he with rfl | he'
      · dsimp only
        rw [hother' nme hnd.1, zipWrite_column_self nme dps col hlen2]
      · exact hself' hnd.2 e he'

/-- Claim C7: for a state whose datapoints share one parameter-name set (without
repetition), a successful shuffle permutes, independently per name, the values of that name
across datapoints — the multiset of values per name is unchanged — while every datapoint
keeps its index and its set of parameter names. -/
theorem shuffle_datapoints_permutes (s s' : State) (dp0 : DataPoint)
    (rest : List DataPoint)
    (hdps : s.datapoints = dp0 :: rest)
    (hkeys : ∀ dp ∈ s.datapoints, dp.data.map Prod.fst = dp0.data.map Prod.fst)
    (hnodup : (dp0.data.map Prod.fst).Nodup)
    (hN : s.datapoints.length = s.general.number_datapoints)
    (hok : shuffle_datapoints s = Except.ok s') :
    (∀ n ∈ dp0.data.map Prod.fst,
      (s'.datapoints.map (fun dp => dictGet dp.data n)).Perm
        (s.datapoints.map (fun dp => dictGet dp.data n)))
    ∧ s'.datapoints.map DataPoint.index = s.datapoints.map DataPoint.index
    ∧ s'.datapoints.map (fun dp => dp.data.map Prod.fst)
        = s.datapoints.map (fun dp => dp.data.map Prod.fst) := by
  unfold shuffle_datapoints at hok
  rw [hdps] at hok
  simp only [bind, Except.bind] at hok
  have hpresent : ∀ n ∈ dp0.data.map Prod.fst, ∀ dp ∈ dp0 :: rest,
      (dictGet dp.data n).isSome = true := by
    intro n hn dp hdp
    apply dictGet_isSome_of_mem_keys
    rw [hkeys dp (hdps ▸ hdp)]
    exact hn
  obtain ⟨cres, hsc, hckeys, hcperm, hclens⟩ :=
    shuffleColumns_ok (dp0.data.map Prod.fst) s.rng (dp0 :: rest) hpresent
  rw [hsc] at hok
  simp only [] at hok
  have hlN : (dp0 :: rest).length = s.general.number_datapoints := by
    rw [← hdps]
    exact hN
  obtain ⟨dps', hwc, hlen', hidx', hkeys', hother', hself'⟩ :=
    writeColumns_spec cres.1 (dp0 :: rest) s.general.number_datapoints hlN
      (fun e he => (hclens e he).trans hlN)
      (fun e he dp hdp => by
        rw [hkeys dp (hdps ▸ hdp)]
        rw [← hckeys]
        exact List.mem_map_of_mem _ he)
  rw [hwc] at hok
  simp only [] at hok
  have hs' : s' = { s with datapoints := dps', rng := cres.2 } := by
    cases hok
    rfl
  have hsdp : s'.datapoints = dps' := by rw [hs']
  refine ⟨?_, ?_, ?_⟩
  · intro n hn
    have hker : n ∈ cres.1.map Prod.fst := by rw [hckeys]; exact hn
    obtain ⟨e, he, hen⟩ := List.mem_map.1 hker
    have hnd : (cres.1.map Prod.fst).Nodup := by rw [hckeys]; exact hnodup
    have hcol := hself' hnd e he
    rw [hsdp, hdps]
    rw [hen] at hcol
    rw [hcol]
    have := hcperm e he
    rw [hen] at this
    exact this
  · rw [hsdp, hdps, hidx']
  · rw [hsdp, hdps, hkeys']

/-- Concrete evaluation of the shuffle on the three-datapoint state. -/
theorem shuffle_datapoints_shuffleState_eval :
    shuffle_datapoints shuffleState = Except.ok shuffleStateShuffled := by
  simp [shuffle_datapoints, collectColumn, shuffleColumns, writeColumns, writeColumn,
    dictGet, dictSet, Rng.shuffleList, applyPerm, halfRng, shuffleState,
    shuffleStateShuffled, baseConfig, scalarData, bind, Except.bind,
    Equiv.refl_apply, List.ofFn_get]

/-- Witness for C7 on the concrete three-datapoint state. -/
theorem shuffle_datapoints_permutes_witness :
    ((shuffleStateShuffled.datapoints.map (fun dp => dictGet dp.data "a")).Perm
      (shuffleState.datapoints.map (fun dp => dictGet dp.data "a")))
    ∧ shuffleStateShuffled.datapoints.map DataPoint.index
        = shuffleState.datapoints.map DataPoint.index := by
  have h := shuffle_datapoints_permutes shuffleState shuffleStateShuffled
    { index := 0, data := [("a", scalarData "a" 1)] }
    [{ index := 1, data := [("a", scalarData "a" 2)] }]
    rfl
    (by
      intro dp hdp
      simp only [shuffleState, List.mem_cons, List.mem_singleton] at hdp
      rcases hdp with rfl | rfl | hcon
      · rfl
      · rfl
      · simp at hcon)
    (by simp)
    rfl
    shuffle_datapoints_shuffleState_eval
  exact ⟨h.1 "a" (by simp), h.2.1⟩

/-- Sharing the source streams is transitive. -/
theorem sameSource_trans {a b c : Rng} (h1 : SameSource a b) (h2 : SameSource b c) :
    SameSource a c :=
  ⟨h2.1.trans h1.1, h2.2.trans h1.2⟩

/-- The time-series resolver only advances the generator position. -/
theorem sameSource_handleTimeSeriesValues (l : List (ℝ × MinMaxOrFloat)) :
    ∀ rand : Rng, SameSource rand (handleTimeSeriesValues rand l).2 := by
  induction l with
  | nil => intro rand; exact ⟨rfl, rfl⟩
  | cons e rest ih =>
    intro rand
    obtain ⟨t, v⟩ := e
    cases v with
    | mm w => exact sameSource_trans ⟨rfl, rfl⟩ (ih (rand.random).2)
    | scalar x => exact ih rand

/-- The injection resolver only advances the generator position. -/
theorem sameSource_handle_heatpump_values (rand : Rng) (hp : HeatPump)
    (pr : HeatPump × Rng) (h : handle_heatpump_values rand hp = Except.ok pr) :
    SameSource rand pr.2 := by
  unfold handle_heatpump_values at h
  cases h1 : hp.injection_temp with
  | timeSeries ts1 =>
    cases h2 : hp.injection_rate with
    | timeSeries ts2 =>
      rw [h1, h2] at h
      simp only [Except.ok.injEq] at h
      rw [← h]
      exact sameSource_trans (sameSource_handleTimeSeriesValues ts1.values rand)
        (sameSource_handleTimeSeriesValues ts2.values _)
    | mm w => rw [h1, h2] at h; cases h
    | scalar x => rw [h1, h2] at h; cases h
  | mm w => rw [h1] at h; cases h
  | scalar x => rw [h1] at h; cases h

/-- Heat-pump variation only advances the generator position. -/
theorem sameSource_vary_heatpump (state : State) (p : Parameter)
    (pr : Data × Rng) (h : vary_heatpump state p = Except.ok pr) :
    SameSource state.rng pr.2 := by
  unfold vary_heatpump at h
  cases hv : p.value with
  | heatPump hp =>
    rw [hv] at h
    simp only [bind, Except.bind] at h
    cases hh : handle_heatpump_values state.rng hp with
    | error e => rw [hh] at h; cases h
    | ok q =>
      rw [hh] at h
      simp only [] at h
      have hsrc := sameSource_handle_heatpump_values state.rng hp q hh
      by_cases hs : p.vary = Vary.SPACE
      · rw [if_pos hs] at h
        simp only [Except.ok.injEq] at h
        rw [← h]
        exact sameSource_trans hsrc ⟨rfl, rfl⟩
      · rw [if_neg hs] at h
        simp only [Except.ok.injEq] at h
        rw [← h]
        exact hsrc
  | scalar x => rw [hv] at h; cases h
  | intList xs => rw [hv] at h; cases h
  | heatPumps g => rw [hv] at h; cases h
  | perlin pv => rw [hv] at h; cases h
  | minMax v => rw [hv] at h; cases h
  | path pth => rw [hv] at h; cases h
  | array f => rw [hv] at h; cases h

/-- Field generation only advances the generator position. -/
theorem sameSource_create_perlin_field (state : State) (p : Parameter)
    (pr : Field3 × Rng) (h : create_perlin_field state p = Except.ok pr) :
    SameSource state.rng pr.2 := by
  unfold create_perlin_field at h
  cases hv : p.value with
  | perlin pv =>
    rw [hv] at h
    simp only [] at h
    cases hfreq : pv.frequency with
    | mm w =>
      rw [hfreq] at h
      by_cases hn : p.name = "pressure_gradient"
      · rw [if_pos hn] at h
        cases hc : calc_pressure_from_gradient_field
            (if p.distribution = Distribution.LOG
              then fieldMap (fun v => (10 : ℝ) ^ v)
                (make_perlin_grid
                  (if p.distribution = Distribution.LOG then Real.logb 10 pv.min else pv.min)
                  (if p.distribution = Distribution.LOG then Real.logb 10 pv.max else pv.max)
                  state
                  [(state.rng.random3).1.1 * 4242, (state.rng.random3).1.2.1 * 4242,
                    (state.rng.random3).1.2.2 * 4242]
                  [w.max - ((state.rng.random3).2).random.1 * (w.max - w.min),
                    w.max - (((state.rng.random3).2).random.2).random.1 * (w.max - w.min),
                    w.max - ((((state.rng.random3).2).random.2).random.2).random.1 * (w.max - w.min)])
              else
                make_perlin_grid
                  (if p.distribution = Distribution.LOG then Real.logb 10 pv.min else pv.min)
                  (if p.distribution = Distribution.LOG then Real.logb 10 pv.max else pv.max)
                  state
                  [(state.rng.random3).1.1 * 4242, (state.rng.random3).1.2.1 * 4242,
                    (state.rng.random3).1.2.2 * 4242]
                  [w.max - ((state.rng.random3).2).random.1 * (w.max - w.min),
                    w.max - (((state.rng.random3).2).random.2).random.1 * (w.max - w.min),
                    w.max - ((((state.rng.random3).2).random.2).random.2).random.1 * (w.max - w.min)])
            state p with
        | error e => rw [hc] at h; cases h
        | ok f =>
          rw [hc] at h
          simp only [Except.ok.injEq] at h
          rw [← h]
          exact ⟨rfl, rfl⟩
      · rw [if_neg hn] at h
        simp only [Except.ok.injEq] at h
        rw [← h]
        exact ⟨rfl, rfl⟩
    | vec fs =>
      rw [hfreq] at h
      by_cases hn : p.name = "pressure_gradient"
      · rw [if_pos hn] at h
        cases hc : calc_pressure_from_gradient_field
            (if p.distribution = Distribution.LOG
              then fieldMap (fun v => (10 : ℝ) ^ v)
                (make_perlin_grid
                  (if p.distribution = Distribution.LOG then Real.logb 10 pv.min else pv.min)
                  (if p.distribution = Distribution.LOG then Real.logb 10 pv.max else pv.max)
                  state
                  [(state.rng.random3).1.1 * 4242, (state.rng.random3).1.2.1 * 4242,
                    (state.rng.random3).1.2.2 * 4242]
                  fs)
              else
                make_perlin_grid
                  (if p.distribution = Distribution.LOG then Real.logb 10 pv.min else pv.min)
                  (if p.distribution = Distribution.LOG then Real.logb 10 pv.max else pv.max)
                  state
                  [(state.rng.random3).1.1 * 4242, (state.rng.random3).1.2.1 * 4242,
                    (state.rng.random3).1.2.2 * 4242]
                  fs)
            state p with
        | error e => rw [hc] at h; cases h
        | ok f =>
          rw [hc] at h
          simp only [Except.ok.injEq] at h
          rw [← h]
          exact ⟨rfl, rfl⟩
      · rw [if_neg hn] at h
        simp only [Except.ok.injEq] at h
        rw [← h]
        exact ⟨rfl, rfl⟩
  | scalar x => rw [hv] at h; cases h
  | intList xs => rw [hv] at h; cases h
  | heatPumps g => rw [hv] at h; cases h
  | heatPump hp => rw [hv] at h; cases h
  | minMax v => rw [hv] at h; cases h
  | path pth => rw [hv] at h; cases h
  | array f => rw [hv] at h; cases h

/-- Copying a FIXED parameter only advances the generator position. -/
theorem sameSource_copy_parameter (state : State) (p : Parameter)
    (pr : Data × Rng) (h : copy_parameter state p = Except.ok pr) :
    SameSource state.rng pr.2 := by
  unfold copy_parameter at h
  cases hv : p.value with
  | heatPump hp =>
    rw [hv] at h
    simp only [] at h
    exact sameSource_vary_heatpump state p pr h
  | scalar x =>
    rw [hv] at h
    simp only [paramValueToDataValue, bind, Except.bind, Except.ok.injEq] at h
    rw [← h]
    exact ⟨rfl, rfl⟩
  | intList xs =>
    rw [hv] at h
    simp only [paramValueToDataValue, bind, Except.bind, Except.ok.injEq] at h
    rw [← h]
    exact ⟨rfl, rfl⟩
  | array f =>
    rw [hv] at h
    simp only [paramValueToDataValue, bind, Except.bind, Except.ok.injEq] at h
    rw [← h]
    exact ⟨rfl, rfl⟩
  | heatPumps g => rw [hv] at h; simp only [paramValueToDataValue, bind, Except.bind] at h; cases h
  | perlin pv => rw [hv] at h; simp only [paramValueToDataValue, bind, Except.bind] at h; cases h
  | minMax v => rw [hv] at h; simp only [paramValueToDataValue, bind, Except.bind] at h; cases h
  | path pth => rw [hv] at h; simp only [paramValueToDataValue, bind, Except.bind] at h; cases h

/-- Resolving any parameter only advances the generator position: the streams are never
replaced. -/
theorem sameSource_vary_parameter (state : State) (p : Parameter) (index : ℕ)
    (pr : Data × Rng) (h : vary_parameter state p index = Except.ok pr) :
    SameSource state.rng pr.2 := by
  unfold vary_parameter at h
  cases hv : p.value with
  | heatPumps g => rw [hv] at h; simp only [] at h; cases h
  | minMax v =>
    rw [hv] at h
    simp only [] at h
    cases hvar : p.vary with
    | FIXED =>
      rw [hvar] at h
      simp only [] at h
      exact sameSource_copy_parameter state p pr h
    | CONST =>
      rw [hvar] at h
      simp only [] at h
      by_cases hone : state.general.number_datapoints = 1
      · rw [if_pos hone] at h
        cases h
      · rw [if_neg hone] at h
        simp only [Except.ok.injEq] at h
        rw [← h]
        exact ⟨rfl, rfl⟩
    | SPACE => rw [hvar] at h; simp only [] at h; cases h
    | LIST => rw [hvar] at h; simp only [] at h; cases h
  | perlin pv =>
    rw [hv] at h
    simp only [] at h
    cases hvar : p.vary with
    | FIXED =>
      rw [hvar] at h
      simp only [] at h
      exact sameSource_copy_parameter state p pr h
    | CONST => rw [hvar] at h; simp only [] at h; cases h
    | SPACE =>
      rw [hvar] at h
      simp only [] at h
      cases hc : create_perlin_field state p with
      | error e => rw [hc] at h; cases h
      | ok q =>
        rw [hc] at h
        simp only [Except.ok.injEq] at h
        rw [← h]
        exact sameSource_create_perlin_field state p q hc
    | LIST => rw [hvar] at h; simp only [] at h; cases h
  | heatPump hp =>
    rw [hv] at h
    simp only [] at h
    cases hvar : p.vary with
    | FIXED =>
      rw [hvar] at h
      simp only [] at h
      exact sameSource_copy_parameter state p pr h
    | CONST => rw [hvar] at h; simp only [] at h; cases h
    | SPACE =>
      rw [hvar] at h
      simp only [] at h
      exact sameSource_vary_heatpump state p pr h
    | LIST => rw [hvar] at h; simp only [] at h; cases h
  | scalar x =>
    rw [hv] at h
    simp only [] at h
    cases hvar : p.vary with
    | FIXED =>
      rw [hvar] at h
      simp only [] at h
      exact sameSource_copy_parameter state p pr h
    | CONST => rw [hvar] at h; simp only [] at h; cases h
    | SPACE => rw [hvar] at h; simp only [] at h; cases h
    | LIST => rw [hvar] at h; simp only [] at h; cases h
  | intList xs =>
    rw [hv] at h
    simp only [] at h
    cases hvar : p.vary with
    | FIXED =>
      rw [hvar] at h
      simp only [] at h
      exact sameSource_copy_parameter state p pr h
    | CONST => rw [hvar] at h; simp only [] at h; cases h
    | SPACE => rw [hvar] at h; simp only [] at h; cases h
    | LIST => rw [hvar] at h; simp only [] at h; cases h
  | path pth =>
    rw [hv] at h
    simp only [] at h
    cases hvar : p.vary with
    | FIXED =>
      rw [hvar] at h
      simp only [] at h
      exact sameSource_copy_parameter state p pr h
    | CONST => rw [hvar] at h; simp only [] at h; cases h
    | SPACE => rw [hvar] at h; simp only [] at h; cases h
    | LIST => rw [hvar] at h; simp only [] at h; cases h
  | array f =>
    rw [hv] at h
    simp only [] at h
    cases hvar : p.vary with
    | FIXED =>
      rw [hvar] at h
      simp only [] at h
      exact sameSource_copy_parameter state p pr h
    | CONST => rw [hvar] at h; simp only [] at h; cases h
    | SPACE => rw [hvar] at h; simp only [] at h; cases h
    | LIST => rw [hvar] at h; simp only [] at h; cases h

/-- The per-datapoint loop never replaces the generator streams. -/
theorem sameSource_varyLoop (ps : List (String × Parameter)) :
    ∀ (state : State) (index : ℕ) (acc : List (String × Data))
      (pr : List (String × Data) × Rng),
    varyLoop state ps index acc = Except.ok pr →
    SameSource state.rng pr.2 := by
  induction ps with
  | nil =>
    intro state index acc pr h
    simp only [varyLoop, Except.ok.injEq] at h
    rw [← h]
    exact ⟨rfl, rfl⟩
  | cons kv rest ih =>
    intro state index acc pr h
    obtain ⟨k, p⟩ := kv
    simp only [varyLoop, bind, Except.bind] at h
    cases hvp : vary_parameter state p index with
    | error e => rw [hvp] at h; cases h
    | ok q =>
      rw [hvp] at h
      simp only [] at h
      obtain ⟨d, rng'⟩ := q
      exact sameSource_trans (sameSource_vary_parameter state p index (d, rng') hvp)
        (ih { state with rng := rng' } index (dictSet acc p.name d) pr h)

/-- The datapoint loop never replaces the generator streams. -/
theorem sameSource_varyIndices (indices : List ℕ) :
    ∀ (state : State) (s' : State),
    varyIndices state indices = Except.ok s' →
    SameSource state.rng s'.rng := by
  induction indices with
  | nil =>
    intro state s' h
    simp only [varyIndices, Except.ok.injEq] at h
    rw [← h]
    exact ⟨rfl, rfl⟩
  | cons i rest ih =>
    intro state s' h
    simp only [varyIndices, bind, Except.bind] at h
    cases hvl : varyLoop state
        (dictMerge state.hydrogeological_parameters state.heatpump_parameters) i [] with
    | error e => rw [hvl] at h; cases h
    | ok q =>
      rw [hvl] at h
      simp only [] at h
      exact sameSource_trans
        (sameSource_varyLoop _ state i [] q hvl)
        (ih _ s' h)

/-- The shuffling loop never replaces the generator streams. -/
theorem sameSource_shuffleColumns (names : List String) :
    ∀ (rng : Rng) (dps : List DataPoint) (res : List (String × List Data) × Rng),
    shuffleColumns rng names dps = Except.ok res →
    SameSource rng res.2 := by
  induction names with
  | nil =>
    intro rng dps res h
    simp only [shuffleColumns, Except.ok.injEq] at h
    rw [← h]
    exact ⟨rfl, rfl⟩
  | cons n rest ih =>
    intro rng dps res h
    simp only [shuffleColumns, bind, Except.bind] at h
    cases hc : collectColumn dps n with
    | error e => rw [hc] at h; cases h
    | ok col =>
      rw [hc] at h
      simp only [] at h
      cases hs : shuffleColumns (rng.shuffleList col).2 rest dps with
      | error e => rw [hs] at h; cases h
      | ok further =>
        rw [hs] at h
        simp only [Except.ok.injEq] at h
        rw [← h]
        exact sameSource_trans ⟨rfl, rfl⟩ (ih (rng.shuffleList col).2 dps further hs)

/-- The shuffle step never replaces the generator streams. -/
theorem sameSource_shuffle_datapoints (s : State) (s' : State)
    (h : shuffle_datapoints s = Except.ok s') :
    SameSource s.rng s'.rng := by
  unfold shuffle_datapoints at h
  cases hdp : s.datapoints with
  | nil => rw [hdp] at h; cases h
  | cons dp0 rest =>
    rw [hdp] at h
    simp only [bind, Except.bind] at h
    cases hsc : shuffleColumns s.rng (dp0.data.map Prod.fst) s.datapoints with
    | error e => rw [hdp] at hsc; rw [hsc] at h; cases h
    | ok cres =>
      rw [hdp] at hsc
      rw [hsc] at h
      simp only [] at h
      cases hwc : writeColumns s.datapoints cres.1 s.general.number_datapoints with
      | error e => rw [hdp] at hwc; rw [hwc] at h; cases h
      | ok dps' =>
        rw [hdp] at hwc
        rw [hwc] at h
        simp only [Except.ok.injEq] at h
        rw [← h]
        exact sameSource_shuffleColumns _ s.rng (dp0 :: rest) cres (by rw [← hdp]; rw [← hdp] at hsc; exact hsc)

/-- The whole variation pass never replaces the generator streams: the generator is never
re-seeded mid-run. -/
theorem sameSource_vary_params (s : State) (s' : State)
    (h : vary_params s = Except.ok s') :
    SameSource s.rng s'.rng := by
  unfold vary_params at h
  simp only [bind, Except.bind] at h
  cases hvi : varyIndices s (List.range s.general.number_datapoints) with
  | error e => rw [hvi] at h; cases h
  | ok s1 =>
    rw [hvi] at h
    simp only [] at h
    have h1 := sameSource_varyIndices _ s s1 hvi
    by_cases hs : s1.general.shuffle_datapoints = true
    · rw [if_pos hs] at h
      exact sameSource_trans h1 (sameSource_shuffle_datapoints s1 s' h)
    · rw [if_neg hs] at h
      simp only [Except.ok.injEq] at h
      rw [← h]
      exact h1

/-- Claim C1: (1) `vary_params` is a pure function of the state — two states agreeing on
every field produce identical results, so a fixed seed gives bit-identical datapoint lists
on identical inputs; (2) the generator is instantiated exactly once, directly from the
configured seed, and equal seeds give equal generators; (3) any successful run returns a
generator with the SAME underlying streams — the generator is never re-seeded mid-run, only
its position advances. -/
theorem vary_params_reproducible :
    (∀ s₁ s₂ : State, s₁.general = s₂.general →
      s₁.hydrogeological_parameters = s₂.hydrogeological_parameters →
      s₁.heatpump_parameters = s₂.heatpump_parameters →
      s₁.datapoints = s₂.datapoints →
      s₁.rng = s₂.rng →
      vary_params s₁ = vary_params s₂)
    ∧ (∀ s₁ s₂ : State,
        (instantiate_random_number_generator s₁).rng = default_rng s₁.general.random_seed
        ∧ (s₁.general.random_seed = s₂.general.random_seed →
            (instantiate_random_number_generator s₁).rng
              = (instantiate_random_number_generator s₂).rng))
    ∧ (∀ s s' : State, vary_params s = Except.ok s' →
        s'.rng.stream = s.rng.stream ∧ s'.rng.perms = s.rng.perms) := by
  refine ⟨?_, ?_, ?_⟩
  · intro s₁ s₂ h1 h2 h3 h4 h5
    have heq : s₁ = s₂ := by
      cases s₁
      cases s₂
      cases h1
      cases h2
      cases h3
      cases h4
      cases h5
      rfl
    rw [heq]
  · intro s₁ s₂
    exact ⟨rfl, fun h => by simp [instantiate_random_number_generator, h]⟩
  · intro s s' h
    exact sameSource_vary_params s s' h

/-- Concrete evaluation of the variation pass on the fixed-scalar state. -/
theorem vary_params_fixedScalarState_eval :
    vary_params fixedScalarState = Except.ok fixedScalarResult := by
  rfl

/-- Witness for C1 on the concrete fixed-scalar state. -/
theorem vary_params_reproducible_witness :
    vary_params fixedScalarState = vary_params fixedScalarState
    ∧ (instantiate_random_number_generator fixedScalarState).rng
        = default_rng fixedScalarState.general.random_seed
    ∧ (fixedScalarResult.rng.stream = fixedScalarState.rng.stream
        ∧ fixedScalarResult.rng.perms = fixedScalarState.rng.perms) :=
  ⟨vary_params_reproducible.1 fixedScalarState fixedScalarState rfl rfl rfl rfl rfl,
   (vary_params_reproducible.2.1 fixedScalarState fixedScalarState).1,
   vary_params_reproducible.2.2 fixedScalarState fixedScalarResult
     vary_params_fixedScalarState_eval⟩

/-- Witness for C2: the middle value of the [1, 5] ramp with three datapoints is exactly 3.
-/
theorem vary_parameter_const_interpolation_witness :
    vary_parameter threeDatapointState (constParamU "permeability" 1 5) 1
      = Except.ok (scalarData "permeability" 3, threeDatapointState.rng) :=
  ((vary_parameter_const_interpolation threeDatapointState "permeability" 1 5 1
    (by norm_num [threeDatapointState, baseConfig])).2.2
    (by norm_num [threeDatapointState, baseConfig])).2.1

/-- Claim C10: for cell counts [n0, n1, n2] and draws r in [0,1) at the current generator
position, the generated location is exactly [ceil(r0 * n0), ceil(r1 * n1), ceil(r2 * n2)]
as integer-valued reals; each component is at most the axis cell count, is at least 1
exactly when the draw is strictly positive, and a draw of exactly 0 yields component 0 —
outside the 1-based grid. -/
theorem generate_heatpump_location_ceil_bounds (s : State) (n0 n1 n2 : ℕ)
    (hcells : s.general.number_cells = [n0, n1, n2])
    (hn0 : 1 ≤ n0) (hn1 : 1 ≤ n1) (hn2 : 1 ≤ n2)
    (r0 r1 r2 : ℝ)
    (hr0 : r0 = s.rng.stream s.rng.pos)
    (hr1 : r1 = s.rng.stream (s.rng.pos + 1))
    (hr2 : r2 = s.rng.stream (s.rng.pos + 1 + 1))
    (hb0 : 0 ≤ r0 ∧ r0 < 1) (hb1 : 0 ≤ r1 ∧ r1 < 1) (hb2 : 0 ≤ r2 ∧ r2 < 1) :
    (generate_heatpump_location s).1
      = [((⌈r0 * n0⌉ : ℤ) : ℝ), ((⌈r1 * n1⌉ : ℤ) : ℝ), ((⌈r2 * n2⌉ : ℤ) : ℝ)]
    ∧ (⌈r0 * n0⌉ ≤ (n0 : ℤ) ∧ (1 ≤ ⌈r0 * n0⌉ ↔ 0 < r0) ∧ (r0 = 0 → ⌈r0 * n0⌉ = 0))
    ∧ (⌈r1 * n1⌉ ≤ (n1 : ℤ) ∧ (1 ≤ ⌈r1 * n1⌉ ↔ 0 < r1) ∧ (r1 = 0 → ⌈r1 * n1⌉ = 0))
    ∧ (⌈r2 * n2⌉ ≤ (n2 : ℤ) ∧ (1 ≤ ⌈r2 * n2⌉ ↔ 0 < r2) ∧ (r2 = 0 → ⌈r2 * n2⌉ = 0)) := by
  have comp : ∀ (r : ℝ) (n : ℕ), 1 ≤ n → 0 ≤ r → r < 1 →
      ⌈r * n⌉ ≤ (n : ℤ) ∧ (1 ≤ ⌈r * n⌉ ↔ 0 < r) ∧ (r = 0 → ⌈r * n⌉ = 0) := by
    intro r n hn hr0 hr1
    have hnpos : (0 : ℝ) < n := by exact_mod_cast Nat.pos_of_ne_zero (by omega)
    refine ⟨?_, ⟨?_, ?_⟩, ?_⟩
    · rw [Int.ceil_le]
      push_cast
      nlinarith
    · intro h
      have h0 : (0 : ℤ) < ⌈r * n⌉ := by omega
      rw [Int.lt_ceil] at h0
      push_cast at h0
      nlinarith
    · intro h
      rw [show (1 : ℤ) = 0 + 1 by ring, Int.add_one_le_iff, Int.lt_ceil]
      push_cast
      positivity
    · intro h
      rw [h, zero_mul, Int.ceil_zero]
  refine ⟨?_, comp r0 n0 hn0 hb0.1 hb0.2, comp r1 n1 hn1 hb1.1 hb1.2,
    comp r2 n2 hn2 hb2.1 hb2.2⟩
  simp [generate_heatpump_location, Rng.random3, Rng.random, hcells, hr0, hr1, hr2]

/-- Witness for C10: with every draw 1/2 on a [32, 256, 1] grid the location is [16, 128,
1]. -/
theorem generate_heatpump_location_ceil_bounds_witness :
    (generate_heatpump_location hpConversionState).1 = [(16 : ℝ), 128, 1] := by
  have h := (generate_heatpump_location_ceil_bounds hpConversionState 32 256 1 rfl
    (by norm_num) (by norm_num) (by norm_num) (1/2) (1/2) (1/2) rfl rfl rfl
    (by norm_num) (by norm_num) (by norm_num)).1
  rw [h]
  norm_num
  rw [Int.ceil_eq_iff]
  norm_num

end
